import Mathlib

/-!
# hello_meshshader_opengl — shader build pipeline and render loop

A shallow embedding of `src/code/main.cpp`.

The program talks to three external collaborators: the OpenGL driver, the GLFW
window library (with the glad loader) and the C runtime.  None of them is part
of the repository, so they are not modelled: every value one of them hands back
to the program is taken from an *oracle* `Env`, which answers a call as an
arbitrary function of the whole history of calls made so far and of the call's
arguments.  A statement proved for every `Env` therefore holds for every
behaviour of driver, window system and allocator.

Every external call the program makes is recorded, in program order, as an
`Event` carrying the arguments and the value the call gave back.  Each embedded
function receives the history `h` of the events that happened before it was
entered and returns the events it issued itself.

Handles (`GLuint`) and enumerators (`GLenum`) are natural numbers, `GLint` and
`int` are integers, pointers are natural numbers with `0` for `NULL`.  The
program performs no arithmetic on any of them, only comparisons.
-/

namespace HelloMeshShader

/-! ## Data model -/

abbrev GLuint := Nat
abbrev GLint := Int
abbrev GLenum := Nat
abbrev Pointer := Nat

/-- Enumerator of `glad.h`. -/
def GL_FALSE : GLint := 0
/-- Enumerator of `glad.h`. -/
def GL_TRUE : GLint := 1
/-- Enumerator of `glad.h`. -/
def GL_FRAGMENT_SHADER : GLenum := 0x8B30
/-- Enumerator of `glad.h`. -/
def GL_MESH_SHADER_NV : GLenum := 0x9559
/-- Enumerator of `glad.h`. -/
def GL_COMPILE_STATUS : GLenum := 0x8B81
/-- Enumerator of `glad.h`. -/
def GL_LINK_STATUS : GLenum := 0x8B82
/-- Enumerator of `glad.h`. -/
def GL_INFO_LOG_LENGTH : GLenum := 0x8B84
/-- Enumerator of `glad.h`. -/
def GL_COLOR_BUFFER_BIT : Nat := 0x4000
/-- Enumerator of `glfw3.h`. -/
def GLFW_PRESS : Int := 1
/-- Enumerator of `glfw3.h`. -/
def GLFW_KEY_ESCAPE : Int := 256
/-- Enumerator of `glfw3.h`. -/
def GLFW_CONTEXT_VERSION_MAJOR : Int := 0x00022002
/-- Enumerator of `glfw3.h`. -/
def GLFW_CONTEXT_VERSION_MINOR : Int := 0x00022003
/-- Enumerator of `glfw3.h`. -/
def GLFW_OPENGL_PROFILE : Int := 0x00022008
/-- Enumerator of `glfw3.h`. -/
def GLFW_OPENGL_CORE_PROFILE : Int := 0x00032001

/-- A decimal floating literal of the source, `digits / 10 ^ places`: the
program only passes such literals on, it never computes with them. -/
structure Decimal where
  digits : Nat
  places : Nat
  deriving DecidableEq, Repr

/-- An argument of a `printf` call after the format string. -/
inductive PrintfArg where
  | d (value : Int)
  | s (text : String)
  deriving DecidableEq, Repr

/-- One call across the boundary of the program, with its arguments and, where
the call hands something back, the value received (last field).  For the
`glGet*iv` queries that value is what the out-parameter holds after the call;
for the info-log queries it is the text left in the buffer.  Arguments the
source fixes to `NULL`, to the count 1 of `glShaderSource` or to the address of
a function are left out.  `glDetachShader` is listed although the program never
calls it, so that its absence can be stated. -/
inductive Event where
  | glCreateShader (shader_type : GLenum) (result : GLuint)
  | glShaderSource (shader : GLuint) (source : String)
  | glCompileShader (shader : GLuint)
  | glGetShaderiv (shader : GLuint) (pname : GLenum) (value : GLint)
  | glGetShaderInfoLog (shader : GLuint) (buf_size : GLint) (buf : Pointer) (log : String)
  | glDeleteShader (shader : GLuint)
  | glCreateProgram (result : GLuint)
  | glAttachShader (program : GLuint) (shader : GLuint)
  | glDetachShader (program : GLuint) (shader : GLuint)
  | glLinkProgram (program : GLuint)
  | glGetProgramiv (program : GLuint) (pname : GLenum) (value : GLint)
  | glGetProgramInfoLog (program : GLuint) (buf_size : GLint) (buf : Pointer) (log : String)
  | glDeleteProgram (program : GLuint)
  | glUseProgram (program : GLuint)
  | glDrawMeshTasksNV (first : GLuint) (count : GLuint)
  | glClearColor (red green blue alpha : Decimal)
  | glClear (mask : Nat)
  | glViewport (x y width height : Int)
  | malloc (size : Int) (result : Pointer)
  | free (ptr : Pointer)
  | printf (format : String) (args : List PrintfArg)
  | glfwInit (result : Int)
  | glfwWindowHint (hint value : Int)
  | glfwCreateWindow (width height : Int) (title : String) (result : Pointer)
  | glfwTerminate
  | glfwSetFramebufferSizeCallback (window : Pointer)
  | glfwMakeContextCurrent (window : Pointer)
  | gladLoadGLLoader (result : Int)
  | glfwWindowShouldClose (window : Pointer) (result : Int)
  | glfwGetKey (window : Pointer) (key : Int) (result : Int)
  | glfwSetWindowShouldClose (window : Pointer) (value : Int)
  | glfwSwapBuffers (window : Pointer)
  | glfwPollEvents
  deriving DecidableEq, Repr

/-- The behaviour of everything outside the program.  Each field answers one
kind of call; its first argument is the history of all events before the call,
the others are the call's arguments.  `glGetShaderiv` and `glGetProgramiv` also
receive the value the out-parameter held before the call and answer with the
value it holds afterwards.  `glfwPollEvents` answers with the framebuffer sizes
for which it invokes the registered resize callback, in order. -/
structure Env where
  glCreateShader : List Event → GLenum → GLuint
  glGetShaderiv : List Event → GLuint → GLenum → GLint → GLint
  glGetShaderInfoLog : List Event → GLuint → GLint → Pointer → String
  glCreateProgram : List Event → GLuint
  glGetProgramiv : List Event → GLuint → GLenum → GLint → GLint
  glGetProgramInfoLog : List Event → GLuint → GLint → Pointer → String
  malloc : List Event → Int → Pointer
  glfwInit : List Event → Int
  glfwCreateWindow : List Event → Int → Int → String → Pointer
  gladLoadGLLoader : List Event → Int
  glfwWindowShouldClose : List Event → Pointer → Int
  glfwGetKey : List Event → Pointer → Int → Int
  glfwPollEvents : List Event → List (Int × Int)

/-- What a function gives back: its return value and the events it issued. -/
structure Res (α : Type) where
  val : α
  trace : List Event

/-- `MeshShader`, main.cpp lines 12-38. -/
def MeshShader : String :=
  "#version 450\n" ++
  "#extension GL_NV_mesh_shader : require\n" ++
  "// set the number of threads per workgroup\n" ++
  "layout(local_size_x = 1) in;\n" ++
  "// maximum allocation size for each meshlet\n" ++
  "layout(max_vertices = 3, max_primitives = 1) out;\n" ++
  "layout(triangles) out;\n" ++
  "out PerVertexData\n" ++
  "\x7b\n" ++
  "  vec4 color;\n" ++
  "\x7d v_out[];\n" ++
  "const vec3 vertices[3] = \x7bvec3(-1,-1,0), vec3(0,1,0), vec3(1,-1,0)\x7d;\n" ++
  "const vec3 colors[3] = \x7bvec3(1.0,0.0,0.0), vec3(0.0,1.0,0.0), vec3(0.0,0.0,1.0)\x7d;\n" ++
  "void main()\n" ++
  "\x7b\n" ++
  "    gl_MeshVerticesNV[0].gl_Position = vec4(vertices[0], 1.0);\n" ++
  "    gl_MeshVerticesNV[1].gl_Position = vec4(vertices[1], 1.0);\n" ++
  "    gl_MeshVerticesNV[2].gl_Position = vec4(vertices[2], 1.0);\n" ++
  "    v_out[0].color = vec4(colors[0], 1.0);\n" ++
  "    v_out[1].color = vec4(colors[1], 1.0);\n" ++
  "    v_out[2].color = vec4(colors[2], 1.0);\n" ++
  "    gl_PrimitiveIndicesNV[0] = 0;\n" ++
  "    gl_PrimitiveIndicesNV[1] = 1;\n" ++
  "    gl_PrimitiveIndicesNV[2] = 2;\n" ++
  "    gl_PrimitiveCountNV = 1;\n" ++
  "\x7d\n"

/-- `FragmentShader`, main.cpp lines 40-50. -/
def FragmentShader : String :=
  "#version 450\n" ++
  "layout(location = 0) out vec4 FragColor;\n" ++
  "in PerVertexData\n" ++
  "\x7b\n" ++
  "  vec4 color;\n" ++
  "\x7d fragIn;\n" ++
  "void main()\n" ++
  "\x7b\n" ++
  "    FragColor = fragIn.color;\n" ++
  "\x7d\n"

/-! ## The shader compiler and the program linker -/

/-- `create_shader_from_string`, main.cpp lines 73-103.  Note where the source
puts `glDeleteShader(shader); shader = 0U;`: inside `if (info_len > 0)`. -/
def create_shader_from_string (env : Env) (shader_type : GLenum) (source : String)
    (h : List Event) : Res GLuint :=
  let shader := env.glCreateShader h shader_type
  let t1 := [Event.glCreateShader shader_type shader]
  if shader ≠ 0 then
    let t2 := t1 ++ [Event.glShaderSource shader source, Event.glCompileShader shader]
    let compiled := env.glGetShaderiv (h ++ t2) shader GL_COMPILE_STATUS 0
    let t3 := t2 ++ [Event.glGetShaderiv shader GL_COMPILE_STATUS compiled]
    if 0 = compiled then
      let info_len := env.glGetShaderiv (h ++ t3) shader GL_INFO_LOG_LENGTH 0
      let t4 := t3 ++ [Event.glGetShaderiv shader GL_INFO_LOG_LENGTH info_len]
      if info_len > 0 then
        let buf := env.malloc (h ++ t4) info_len
        let t5 := t4 ++ [Event.malloc info_len buf]
        let t6 :=
          if buf ≠ 0 then
            let log := env.glGetShaderInfoLog (h ++ t5) shader info_len buf
            t5 ++ [Event.glGetShaderInfoLog shader info_len buf log,
                   Event.printf "Could not compile shader %d: %s\n"
                     [PrintfArg.d shader_type, PrintfArg.s log],
                   Event.free buf]
          else t5
        ⟨0, t6 ++ [Event.glDeleteShader shader]⟩
      else ⟨shader, t4⟩
    else ⟨shader, t3⟩
  else ⟨shader, t1⟩

/-- `create_program`, main.cpp lines 108-144. -/
def create_program (env : Env) (mesh_shader fragment_shader : GLuint)
    (h : List Event) : Res GLuint :=
  if 0 = mesh_shader ∨ 0 = fragment_shader then ⟨0, []⟩
  else
    let program := env.glCreateProgram h
    let t1 := [Event.glCreateProgram program]
    if program ≠ 0 then
      let t2 := t1 ++ [Event.glAttachShader program mesh_shader,
                       Event.glAttachShader program fragment_shader,
                       Event.glLinkProgram program]
      let link_status := env.glGetProgramiv (h ++ t2) program GL_LINK_STATUS GL_FALSE
      let t3 := t2 ++ [Event.glGetProgramiv program GL_LINK_STATUS link_status]
      if link_status ≠ GL_TRUE then
        let buf_length := env.glGetProgramiv (h ++ t3) program GL_INFO_LOG_LENGTH 0
        let t4 := t3 ++ [Event.glGetProgramiv program GL_INFO_LOG_LENGTH buf_length]
        let t6 :=
          if buf_length > 0 then
            let buf := env.malloc (h ++ t4) buf_length
            let t5 := t4 ++ [Event.malloc buf_length buf]
            if buf ≠ 0 then
              let log := env.glGetProgramInfoLog (h ++ t5) program buf_length buf
              t5 ++ [Event.glGetProgramInfoLog program buf_length buf log,
                     Event.printf "Could not link program: %s\n" [PrintfArg.s log],
                     Event.free buf]
            else t5
          else t4
        ⟨0, t6 ++ [Event.glDeleteProgram program]⟩
      else ⟨program, t3⟩
    else ⟨program, t1⟩

/-! ## Input handling and the render loop -/

/-- `framebuffer_size_callback`, main.cpp lines 55-59. -/
def framebuffer_size_callback (_window : Pointer) (width height : Int) : List Event :=
  [Event.glViewport 0 0 width height]

/-- `process_input`, main.cpp lines 64-68.  The C++ `true` passed to
`glfwSetWindowShouldClose` converts to the `int` 1. -/
def process_input (env : Env) (window : Pointer) (h : List Event) : List Event :=
  let key := env.glfwGetKey h window GLFW_KEY_ESCAPE
  let t1 := [Event.glfwGetKey window GLFW_KEY_ESCAPE key]
  if key = GLFW_PRESS then t1 ++ [Event.glfwSetWindowShouldClose window 1] else t1

/-- The body of the `while` loop of `main`, main.cpp lines 184-192: one
iteration after the loop-top check let it in.  The resize callback registered
in line 164 runs inside `glfwPollEvents`, once for each size the environment
reports. -/
def main_loop_body (env : Env) (gpu_program : GLuint) (window : Pointer)
    (h : List Event) : List Event :=
  let t1 := process_input env window h
  let t2 := t1 ++ [Event.glClearColor ⟨2, 1⟩ ⟨3, 1⟩ ⟨3, 1⟩ ⟨10, 1⟩,
                   Event.glClear GL_COLOR_BUFFER_BIT,
                   Event.glUseProgram gpu_program,
                   Event.glDrawMeshTasksNV 0 1,
                   Event.glfwSwapBuffers window,
                   Event.glfwPollEvents]
  let resizes := env.glfwPollEvents (h ++ t2)
  t2 ++ (resizes.map (fun wh => framebuffer_size_callback window wh.1 wh.2)).flatten

/-- The `while (!glfwWindowShouldClose(window))` loop of `main`, main.cpp lines
182-193.  The loop need not terminate, so it runs on fuel, one unit for each
loop-top check; the value is `true` when the loop was left through its
condition and `false` when the fuel ran out first. -/
def main_render_loop (env : Env) (gpu_program : GLuint) (window : Pointer) :
    Nat → List Event → Res Bool
  | 0, _ => ⟨false, []⟩
  | fuel + 1, h =>
    let closing := env.glfwWindowShouldClose h window
    let t1 := [Event.glfwWindowShouldClose window closing]
    if closing ≠ 0 then ⟨true, t1⟩
    else
      let t2 := t1 ++ main_loop_body env gpu_program window (h ++ t1)
      let rest := main_render_loop env gpu_program window fuel (h ++ t2)
      ⟨rest.val, t2 ++ rest.trace⟩

/-- How a run of `main` ends: it returns a code, it is stopped by a failed
`assert`, or it is still inside the render loop when the fuel is used up. -/
inductive Outcome where
  | returned (code : Int)
  | aborted
  | running
  deriving DecidableEq, Repr

/-- A run of `main`: how it ended, the events it issued, and the values given
to the three locals `mesh_shader`, `fragment_shader` and `gpu_program`
(`none` for a local whose initialiser was never reached). -/
structure MainRun where
  outcome : Outcome
  trace : List Event
  mesh_shader : Option GLuint
  fragment_shader : Option GLuint
  gpu_program : Option GLuint

/-- `main`, main.cpp lines 149-198.  `assert` is the one of `<assert.h>` with
`NDEBUG` not defined, as in the source file: a false condition stops the
program on the spot (the second argument the source passes to it plays no part).
The return value of `glfwInit` is ignored by the source. -/
def main (env : Env) (fuel : Nat) (h : List Event) : MainRun :=
  let t0 := [Event.glfwInit (env.glfwInit h),
             Event.glfwWindowHint GLFW_CONTEXT_VERSION_MAJOR 4,
             Event.glfwWindowHint GLFW_CONTEXT_VERSION_MINOR 6,
             Event.glfwWindowHint GLFW_OPENGL_PROFILE GLFW_OPENGL_CORE_PROFILE]
  let window := env.glfwCreateWindow (h ++ t0) 800 600 "Hello Meshshader"
  let t1 := t0 ++ [Event.glfwCreateWindow 800 600 "Hello Meshshader" window]
  if window = 0 then
    ⟨Outcome.returned (-1),
     t1 ++ [Event.printf "Failed to create GLFW window\n" [], Event.glfwTerminate],
     none, none, none⟩
  else
    let t2 := t1 ++ [Event.glfwSetFramebufferSizeCallback window,
                     Event.glfwMakeContextCurrent window]
    let loaded := env.gladLoadGLLoader (h ++ t2)
    let t3 := t2 ++ [Event.gladLoadGLLoader loaded]
    if loaded = 0 then
      ⟨Outcome.returned (-1), t3 ++ [Event.printf "Failed to initialize GLAD\n" []],
       none, none, none⟩
    else
      let t4 := t3 ++ [Event.glViewport 0 0 800 600]
      let mesh := create_shader_from_string env GL_MESH_SHADER_NV MeshShader (h ++ t4)
      let t5 := t4 ++ mesh.trace
      if mesh.val = 0 then ⟨Outcome.aborted, t5, some mesh.val, none, none⟩
      else
        let fragment :=
          create_shader_from_string env GL_FRAGMENT_SHADER FragmentShader (h ++ t5)
        let t6 := t5 ++ fragment.trace
        if fragment.val = 0 then
          ⟨Outcome.aborted, t6, some mesh.val, some fragment.val, none⟩
        else
          let program := create_program env mesh.val fragment.val (h ++ t6)
          let t7 := t6 ++ program.trace
          if program.val = 0 then
            ⟨Outcome.aborted, t7, some mesh.val, some fragment.val, some program.val⟩
          else
            let loop := main_render_loop env program.val window fuel (h ++ t7)
            if loop.val then
              ⟨Outcome.returned 0, t7 ++ loop.trace ++ [Event.glfwTerminate],
               some mesh.val, some fragment.val, some program.val⟩
            else
              ⟨Outcome.running, t7 ++ loop.trace,
               some mesh.val, some fragment.val, some program.val⟩

/-! ## Reading traces -/

/-- The key states `glfwGetKey` handed to the program, in order. -/
def observed_keys : List Event → List Int
  | [] => []
  | Event.glfwGetKey _ _ result :: rest => result :: observed_keys rest
  | _ :: rest => observed_keys rest

/-- The calls only the two builders make: shader and program object calls, the
allocator and `printf`. -/
def Event.isBuilderCall : Event → Bool
  | Event.glCreateShader _ _ => true
  | Event.glShaderSource _ _ => true
  | Event.glCompileShader _ => true
  | Event.glGetShaderiv _ _ _ => true
  | Event.glGetShaderInfoLog _ _ _ _ => true
  | Event.glDeleteShader _ => true
  | Event.glCreateProgram _ => true
  | Event.glAttachShader _ _ => true
  | Event.glLinkProgram _ => true
  | Event.glGetProgramiv _ _ _ => true
  | Event.glGetProgramInfoLog _ _ _ _ => true
  | Event.glDeleteProgram _ => true
  | Event.malloc _ _ => true
  | Event.free _ => true
  | Event.printf _ _ => true
  | _ => false

/-- The calls only the render loop makes (the resize callback's `glViewport` is
not among them: `main` also calls `glViewport` once before the loop). -/
def Event.isLoopCall : Event → Bool
  | Event.glfwWindowShouldClose _ _ => true
  | Event.glfwGetKey _ _ _ => true
  | Event.glfwSetWindowShouldClose _ _ => true
  | Event.glClearColor _ _ _ _ => true
  | Event.glClear _ => true
  | Event.glUseProgram _ => true
  | Event.glDrawMeshTasksNV _ _ => true
  | Event.glfwSwapBuffers _ => true
  | Event.glfwPollEvents => true
  | _ => false

/-- A shader or program object call, or a draw. -/
def Event.isShaderOrProgramCall : Event → Bool
  | Event.glCreateShader _ _ => true
  | Event.glShaderSource _ _ => true
  | Event.glCompileShader _ => true
  | Event.glGetShaderiv _ _ _ => true
  | Event.glGetShaderInfoLog _ _ _ _ => true
  | Event.glDeleteShader _ => true
  | Event.glCreateProgram _ => true
  | Event.glAttachShader _ _ => true
  | Event.glDetachShader _ _ => true
  | Event.glLinkProgram _ => true
  | Event.glGetProgramiv _ _ _ => true
  | Event.glGetProgramInfoLog _ _ _ _ => true
  | Event.glDeleteProgram _ => true
  | Event.glUseProgram _ => true
  | Event.glDrawMeshTasksNV _ _ => true
  | _ => false

/-- The calls that only the platform start-up of `main` makes (lines 153-166). -/
def Event.isStartupCall : Event → Bool
  | Event.glfwInit _ => true
  | Event.glfwWindowHint _ _ => true
  | Event.glfwCreateWindow _ _ _ _ => true
  | Event.glfwSetFramebufferSizeCallback _ => true
  | Event.glfwMakeContextCurrent _ => true
  | Event.gladLoadGLLoader _ => true
  | _ => false

/-- The calls of `main` up to `glfwCreateWindow` (lines 153-157), given what
`glfwInit` and `glfwCreateWindow` returned. -/
def window_calls (init : Int) (window : Pointer) : List Event :=
  [Event.glfwInit init,
   Event.glfwWindowHint GLFW_CONTEXT_VERSION_MAJOR 4,
   Event.glfwWindowHint GLFW_CONTEXT_VERSION_MINOR 6,
   Event.glfwWindowHint GLFW_OPENGL_PROFILE GLFW_OPENGL_CORE_PROFILE,
   Event.glfwCreateWindow 800 600 "Hello Meshshader" window]

/-- The calls of `main` from the callback registration to the loader (lines
164-166), given what `gladLoadGLLoader` returned. -/
def context_calls (window : Pointer) (loaded : Int) : List Event :=
  [Event.glfwSetFramebufferSizeCallback window,
   Event.glfwMakeContextCurrent window,
   Event.gladLoadGLLoader loaded]

/-! ## Concrete environments

Small environments on which the statements below are evaluated. -/

/-- The environment in which every call fails or reports nothing: handles and
pointers are 0, out-parameters are left as they were, no key is pressed, no
resize is reported and the window never asks to close. -/
def Env.silent : Env where
  glCreateShader := fun _ _ => 0
  glGetShaderiv := fun _ _ _ before => before
  glGetShaderInfoLog := fun _ _ _ _ => ""
  glCreateProgram := fun _ => 0
  glGetProgramiv := fun _ _ _ before => before
  glGetProgramInfoLog := fun _ _ _ _ => ""
  malloc := fun _ _ => 0
  glfwInit := fun _ => 0
  glfwCreateWindow := fun _ _ _ _ => 0
  gladLoadGLLoader := fun _ => 0
  glfwWindowShouldClose := fun _ _ => 0
  glfwGetKey := fun _ _ _ => 0
  glfwPollEvents := fun _ => []

/-- A driver that hands out shader object 1, reports `compiled` for
`GL_COMPILE_STATUS` and `len` for `GL_INFO_LOG_LENGTH`; the allocator hands out
`buf`. -/
def shader_driver (compiled len : GLint) (buf : Pointer) : Env :=
  { Env.silent with
    glCreateShader := fun _ _ => 1
    glGetShaderiv := fun _ _ pname _ => if pname = GL_COMPILE_STATUS then compiled else len
    glGetShaderInfoLog := fun _ _ _ _ => "0(1) : error C0000: syntax error"
    malloc := fun _ _ => buf }

/-- A driver that hands out program object 7, reports `status` for
`GL_LINK_STATUS` and `len` for `GL_INFO_LOG_LENGTH`; the allocator hands out
`buf`. -/
def program_driver (status len : GLint) (buf : Pointer) : Env :=
  { Env.silent with
    glCreateProgram := fun _ => 7
    glGetProgramiv := fun _ _ pname _ => if pname = GL_LINK_STATUS then status else len
    glGetProgramInfoLog := fun _ _ _ _ => "Link error"
    malloc := fun _ _ => buf }

/-- A window system whose should-close flag is false until the program sets it
and in which Escape is down exactly during iteration `n` of the render loop
(iterations counted from 1 by the `glfwPollEvents` calls already made); every
poll reports one resize, to 640 by 480. -/
def quit_in_iteration (n : Nat) : Env :=
  { Env.silent with
    glfwWindowShouldClose := fun hist w =>
      if Event.glfwSetWindowShouldClose w 1 ∈ hist then 1 else 0
    glfwGetKey := fun hist _ _ =>
      if List.count Event.glfwPollEvents hist + 1 = n then GLFW_PRESS else 0
    glfwPollEvents := fun _ => [(640, 480)] }

/-- A platform on which everything succeeds: window 4096, a loader that
reports success, shader objects numbered by the length of the history, program
object 9, compile and link status 1; Escape goes down in iteration 2. -/
def working_platform : Env :=
  { quit_in_iteration 2 with
    glCreateShader := fun hist _ => hist.length
    glGetShaderiv := fun _ _ pname _ => if pname = GL_COMPILE_STATUS then 1 else 0
    glCreateProgram := fun _ => 9
    glGetProgramiv := fun _ _ pname _ => if pname = GL_LINK_STATUS then GL_TRUE else 0
    glfwInit := fun _ => 1
    glfwCreateWindow := fun _ _ _ _ => 4096
    gladLoadGLLoader := fun _ => 1 }

/-- The working platform with a driver that refuses to create shader objects. -/
def no_shader_platform : Env :=
  { working_platform with glCreateShader := fun _ _ => 0 }

/-- The working platform with a binding loader that fails. -/
def no_loader_platform : Env :=
  { working_platform with gladLoadGLLoader := fun _ => 0 }

/-- The working platform with nobody at the keyboard and a window that asks to
close once `k` polls have been made. -/
def closed_after (k : Nat) : Env :=
  { working_platform with
    glfwGetKey := fun _ _ _ => 0
    glfwWindowShouldClose := fun hist _ =>
      if k ≤ List.count Event.glfwPollEvents hist then 1 else 0 }

/-! ## Theorems -/

/-- Every run of `create_shader_from_string` has one of five shapes. -/
theorem create_shader_from_string_cases (env : Env) (shader_type : GLenum)
    (source : String) (h : List Event) :
    ∃ (s : GLuint) (len : GLint) (c : GLint) (buf : Pointer) (log : String),
      (s = 0 ∧ create_shader_from_string env shader_type source h =
        ⟨0, [Event.glCreateShader shader_type 0]⟩) ∨
      (s ≠ 0 ∧ c ≠ 0 ∧ create_shader_from_string env shader_type source h =
        ⟨s, [Event.glCreateShader shader_type s, Event.glShaderSource s source,
             Event.glCompileShader s, Event.glGetShaderiv s GL_COMPILE_STATUS c]⟩) ∨
      (s ≠ 0 ∧ len ≤ 0 ∧ create_shader_from_string env shader_type source h =
        ⟨s, [Event.glCreateShader shader_type s, Event.glShaderSource s source,
             Event.glCompileShader s, Event.glGetShaderiv s GL_COMPILE_STATUS 0,
             Event.glGetShaderiv s GL_INFO_LOG_LENGTH len]⟩) ∨
      (s ≠ 0 ∧ 0 < len ∧ create_shader_from_string env shader_type source h =
        ⟨0, [Event.glCreateShader shader_type s, Event.glShaderSource s source,
             Event.glCompileShader s, Event.glGetShaderiv s GL_COMPILE_STATUS 0,
             Event.glGetShaderiv s GL_INFO_LOG_LENGTH len, Event.malloc len 0,
             Event.glDeleteShader s]⟩) ∨
      (s ≠ 0 ∧ 0 < len ∧ buf ≠ 0 ∧ create_shader_from_string env shader_type source h =
        ⟨0, [Event.glCreateShader shader_type s, Event.glShaderSource s source,
             Event.glCompileShader s, Event.glGetShaderiv s GL_COMPILE_STATUS 0,
             Event.glGetShaderiv s GL_INFO_LOG_LENGTH len, Event.malloc len buf,
             Event.glGetShaderInfoLog s len buf log,
             Event.printf "Could not compile shader %d: %s\n"
               [PrintfArg.d shader_type, PrintfArg.s log],
             Event.free buf, Event.glDeleteShader s]⟩) := by
  unfold create_shader_from_string
  simp only []
  generalize env.glCreateShader h shader_type = s
  generalize env.glGetShaderiv _ s GL_COMPILE_STATUS 0 = c
  generalize env.glGetShaderiv _ s GL_INFO_LOG_LENGTH 0 = len
  generalize env.malloc _ len = buf
  generalize env.glGetShaderInfoLog _ s len buf = log
  refine ⟨s, len, c, buf, log, ?_⟩
  by_cases hs : s = 0
  · subst hs; simp
  by_cases hc : c = 0
  · subst hc
    by_cases hl : 0 < len
    · by_cases hb : buf = 0
      · subst hb; simp [hs, hl]
      · simp [hs, hl, hb]
    · have hl2 : len ≤ 0 := not_lt.mp hl
      simp [hs, hl, hl2]
  · have hc2 : ¬ (0 = c) := fun e => hc e.symm
    simp [hs, hc, hc2]

/-- Every run of `create_program` has one of six shapes. -/
theorem create_program_cases (env : Env) (m f : GLuint) (h : List Event) :
    ∃ (p : GLuint) (ls : GLint) (len : GLint) (buf : Pointer) (log : String),
      ((m = 0 ∨ f = 0) ∧ create_program env m f h = ⟨0, []⟩) ∨
      (m ≠ 0 ∧ f ≠ 0 ∧ p = 0 ∧ create_program env m f h =
        ⟨0, [Event.glCreateProgram 0]⟩) ∨
      (m ≠ 0 ∧ f ≠ 0 ∧ p ≠ 0 ∧ ls = GL_TRUE ∧ create_program env m f h =
        ⟨p, [Event.glCreateProgram p, Event.glAttachShader p m, Event.glAttachShader p f,
             Event.glLinkProgram p, Event.glGetProgramiv p GL_LINK_STATUS ls]⟩) ∨
      (m ≠ 0 ∧ f ≠ 0 ∧ p ≠ 0 ∧ ls ≠ GL_TRUE ∧ len ≤ 0 ∧ create_program env m f h =
        ⟨0, [Event.glCreateProgram p, Event.glAttachShader p m, Event.glAttachShader p f,
             Event.glLinkProgram p, Event.glGetProgramiv p GL_LINK_STATUS ls,
             Event.glGetProgramiv p GL_INFO_LOG_LENGTH len, Event.glDeleteProgram p]⟩) ∨
      (m ≠ 0 ∧ f ≠ 0 ∧ p ≠ 0 ∧ ls ≠ GL_TRUE ∧ 0 < len ∧ create_program env m f h =
        ⟨0, [Event.glCreateProgram p, Event.glAttachShader p m, Event.glAttachShader p f,
             Event.glLinkProgram p, Event.glGetProgramiv p GL_LINK_STATUS ls,
             Event.glGetProgramiv p GL_INFO_LOG_LENGTH len, Event.malloc len 0,
             Event.glDeleteProgram p]⟩) ∨
      (m ≠ 0 ∧ f ≠ 0 ∧ p ≠ 0 ∧ ls ≠ GL_TRUE ∧ 0 < len ∧ buf ≠ 0 ∧
        create_program env m f h =
        ⟨0, [Event.glCreateProgram p, Event.glAttachShader p m, Event.glAttachShader p f,
             Event.glLinkProgram p, Event.glGetProgramiv p GL_LINK_STATUS ls,
             Event.glGetProgramiv p GL_INFO_LOG_LENGTH len, Event.malloc len buf,
             Event.glGetProgramInfoLog p len buf log,
             Event.printf "Could not link program: %s\n" [PrintfArg.s log],
             Event.free buf, Event.glDeleteProgram p]⟩) := by
  unfold create_program
  simp only []
  generalize env.glCreateProgram h = p
  generalize env.glGetProgramiv _ p GL_LINK_STATUS GL_FALSE = ls
  generalize env.glGetProgramiv _ p GL_INFO_LOG_LENGTH 0 = len
  generalize env.malloc _ len = buf
  generalize env.glGetProgramInfoLog _ p len buf = log
  refine ⟨p, ls, len, buf, log, ?_⟩
  by_cases hm : m = 0
  · subst hm; simp
  by_cases hf : f = 0
  · subst hf; simp
  have hm2 : ¬ (0 = m) := fun e => hm e.symm
  have hf2 : ¬ (0 = f) := fun e => hf e.symm
  by_cases hp : p = 0
  · subst hp; simp [hm, hf, hm2, hf2]
  by_cases hls : ls = GL_TRUE
  · simp [hm, hf, hm2, hf2, hp, hls]
  by_cases hl : 0 < len
  · by_cases hb : buf = 0
    · subst hb; simp [hm, hf, hm2, hf2, hp, hls, hl]
    · simp [hm, hf, hm2, hf2, hp, hls, hl, hb]
  · have hl2 : len ≤ 0 := not_lt.mp hl
    simp [hm, hf, hm2, hf2, hp, hls, hl, hl2]

/-- C2: with a null mesh shader, a null fragment shader or both, `create_program`
returns the null handle 0 and issues no call at all (its trace is empty). -/
theorem create_program_null_input (env : Env) (x : GLuint) (h : List Event) :
    ((create_program env 0 x h).val = 0 ∧ (create_program env 0 x h).trace = []) ∧
    ((create_program env x 0 h).val = 0 ∧ (create_program env x 0 h).trace = []) ∧
    ((create_program env 0 0 h).val = 0 ∧ (create_program env 0 0 h).trace = []) := by
  simp [create_program]

/-- C3: let the shader handles be non-null, let the driver answer
`glCreateProgram` with a non-zero object `p`, and let `ls` be the value the
driver leaves in `link_status` when it is asked for `GL_LINK_STATUS` of `p`
after the two attaches and the link.  Then `create_program` makes exactly these
calls first, and it returns a non-null handle exactly when `ls` is `GL_TRUE`;
it then returns `p`, and for every other value of `ls`, non-zero ones included,
it returns 0. -/
theorem create_program_link_status (env : Env) (m f : GLuint) (h : List Event)
    (p : GLuint) (ls : GLint) (hm : m ≠ 0) (hf : f ≠ 0) (hp : p ≠ 0)
    (hcreate : env.glCreateProgram h = p)
    (hstatus : env.glGetProgramiv
      (h ++ [Event.glCreateProgram p, Event.glAttachShader p m, Event.glAttachShader p f,
             Event.glLinkProgram p]) p GL_LINK_STATUS GL_FALSE = ls) :
    ((create_program env m f h).val ≠ 0 ↔ ls = GL_TRUE) ∧
    (ls = GL_TRUE → (create_program env m f h).val = p) ∧
    (ls ≠ GL_TRUE → (create_program env m f h).val = 0) ∧
    (∃ rest, (create_program env m f h).trace =
      [Event.glCreateProgram p, Event.glAttachShader p m, Event.glAttachShader p f,
       Event.glLinkProgram p, Event.glGetProgramiv p GL_LINK_STATUS ls] ++ rest) := by
  have hm2 : ¬ (0 = m) := fun e => hm e.symm
  have hf2 : ¬ (0 = f) := fun e => hf e.symm
  unfold create_program
  simp only [List.cons_append, List.nil_append, hcreate, hstatus]
  by_cases hls : ls = GL_TRUE
  · simp [hm2, hf2, hp, hls]
  · simp only [hm2, hf2, hp, hls, or_self, if_false, ne_eq, not_false_eq_true, if_true]
    refine ⟨by simp [hls], by simp [hls], fun _ => trivial, ?_⟩
    split_ifs <;> simp

/-- C3 at two concrete drivers, both handing out program object 7 for shaders 1
and 2: with link status `GL_TRUE` the result is 7, with link status 2 (non-zero
but not `GL_TRUE`) it is 0. -/
theorem create_program_link_status_witness :
    (create_program (program_driver GL_TRUE 0 0) 1 2 []).val = 7 ∧
    (create_program (program_driver 2 0 0) 1 2 []).val = 0 :=
  ⟨(create_program_link_status (program_driver GL_TRUE 0 0) 1 2 [] 7 GL_TRUE
      (by decide) (by decide) (by decide) rfl rfl).2.1 rfl,
   (create_program_link_status (program_driver 2 0 0) 1 2 [] 7 2
      (by decide) (by decide) (by decide) rfl rfl).2.2.1 (by decide)⟩

/-- C1 at the failing input: the driver creates shader 1, reports a failed
compile (`GL_COMPILE_STATUS` 0) and an empty info log (`GL_INFO_LOG_LENGTH` 0).
`create_shader_from_string` returns the non-null handle 1 and never calls
`glDeleteShader`. -/
theorem create_shader_failed_compile_empty_log :
    create_shader_from_string (shader_driver 0 0 0) GL_MESH_SHADER_NV MeshShader [] =
      ⟨1, [Event.glCreateShader GL_MESH_SHADER_NV 1, Event.glShaderSource 1 MeshShader,
           Event.glCompileShader 1, Event.glGetShaderiv 1 GL_COMPILE_STATUS 0,
           Event.glGetShaderiv 1 GL_INFO_LOG_LENGTH 0]⟩ := by
  simp [create_shader_from_string, shader_driver, GL_COMPILE_STATUS, GL_INFO_LOG_LENGTH]

/-- C10: in both builders the object created inside is either returned and
never deleted, or deleted exactly once with 0 returned; the returned handle is
non-zero exactly when a non-zero object was created and no delete call was made
on it; and no handle is deleted twice. -/
theorem builders_no_dangling_handle (env : Env) (shader_type : GLenum) (source : String)
    (m f : GLuint) (h : List Event) :
    ((∀ s, s ≠ 0 → Event.glCreateShader shader_type s ∈
          (create_shader_from_string env shader_type source h).trace →
        ((create_shader_from_string env shader_type source h).val = s ∧
          List.count (Event.glDeleteShader s)
            (create_shader_from_string env shader_type source h).trace = 0) ∨
        ((create_shader_from_string env shader_type source h).val = 0 ∧
          List.count (Event.glDeleteShader s)
            (create_shader_from_string env shader_type source h).trace = 1)) ∧
     ((create_shader_from_string env shader_type source h).val ≠ 0 ↔
        ∃ s, s ≠ 0 ∧
          Event.glCreateShader shader_type s ∈
            (create_shader_from_string env shader_type source h).trace ∧
          Event.glDeleteShader s ∉
            (create_shader_from_string env shader_type source h).trace) ∧
     (∀ x, List.count (Event.glDeleteShader x)
        (create_shader_from_string env shader_type source h).trace ≤ 1)) ∧
    ((∀ p, p ≠ 0 → Event.glCreateProgram p ∈ (create_program env m f h).trace →
        ((create_program env m f h).val = p ∧
          List.count (Event.glDeleteProgram p) (create_program env m f h).trace = 0) ∨
        ((create_program env m f h).val = 0 ∧
          List.count (Event.glDeleteProgram p) (create_program env m f h).trace = 1)) ∧
     ((create_program env m f h).val ≠ 0 ↔
        ∃ p, p ≠ 0 ∧ Event.glCreateProgram p ∈ (create_program env m f h).trace ∧
          Event.glDeleteProgram p ∉ (create_program env m f h).trace) ∧
     (∀ x, List.count (Event.glDeleteProgram x) (create_program env m f h).trace ≤ 1)) := by
  constructor
  · obtain ⟨s', len, c', buf, log, hcases⟩ :=
      create_shader_from_string_cases env shader_type source h
    rcases hcases with ⟨_, e⟩ | ⟨_, _, e⟩ | ⟨_, _, e⟩ | ⟨_, _, e⟩ | ⟨_, _, _, e⟩ <;>
    rw [e] <;>
    simp [List.count_cons, List.count_nil] <;>
    first
      | (intro x _ hx; exact hx.symm)
      | exact ⟨fun x _ hx => Or.inr hx.symm, fun x => by split <;> simp⟩
  · obtain ⟨p', ls', len, buf, log, hc⟩ := create_program_cases env m f h
    rcases hc with ⟨_, e⟩ | ⟨_, _, _, e⟩ | ⟨_, _, _, _, e⟩ | ⟨_, _, _, _, _, e⟩ |
      ⟨_, _, _, _, _, e⟩ | ⟨_, _, _, _, _, _, e⟩ <;>
    rw [e] <;>
    simp [List.count_cons, List.count_nil] <;>
    first
      | (intro x _ hx; exact hx.symm)
      | exact ⟨fun x _ hx => Or.inr hx.symm, fun x => by split <;> simp⟩

/-! ### The render loop -/

/-- The resize callbacks run by one `glfwPollEvents` issue one `glViewport` each. -/
theorem flatten_map_callback (window : Pointer) (resizes : List (Int × Int)) :
    (resizes.map (fun wh => framebuffer_size_callback window wh.1 wh.2)).flatten =
      resizes.map (fun wh => Event.glViewport 0 0 wh.1 wh.2) := by
  induction resizes with
  | nil => rfl
  | cons a l ih => simpa [framebuffer_size_callback] using ih

/-- The events of one pass through the loop body. -/
theorem main_loop_body_eq (env : Env) (p : GLuint) (w : Pointer) (h : List Event) :
    ∃ resizes : List (Int × Int),
      main_loop_body env p w h =
        [Event.glfwGetKey w GLFW_KEY_ESCAPE (env.glfwGetKey h w GLFW_KEY_ESCAPE)] ++
        (if env.glfwGetKey h w GLFW_KEY_ESCAPE = GLFW_PRESS
          then [Event.glfwSetWindowShouldClose w 1] else []) ++
        [Event.glClearColor ⟨2, 1⟩ ⟨3, 1⟩ ⟨3, 1⟩ ⟨10, 1⟩, Event.glClear GL_COLOR_BUFFER_BIT,
         Event.glUseProgram p, Event.glDrawMeshTasksNV 0 1, Event.glfwSwapBuffers w,
         Event.glfwPollEvents] ++
        resizes.map (fun wh => Event.glViewport 0 0 wh.1 wh.2) := by
  unfold main_loop_body process_input
  simp only [flatten_map_callback]
  generalize env.glfwGetKey h w GLFW_KEY_ESCAPE = key
  generalize env.glfwPollEvents _ = resizes
  refine ⟨resizes, ?_⟩
  by_cases hk : key = GLFW_PRESS <;> simp [hk]

/-- A loop-top check that finds the flag set ends the loop. -/
theorem main_render_loop_exit (env : Env) (p : GLuint) (w : Pointer) (fuel : Nat)
    (h : List Event) (hc : env.glfwWindowShouldClose h w ≠ 0) :
    main_render_loop env p w (fuel + 1) h =
      ⟨true, [Event.glfwWindowShouldClose w (env.glfwWindowShouldClose h w)]⟩ := by
  simp [main_render_loop, hc]

/-- A loop-top check that finds the flag clear is followed by the body and then by
the rest of the loop. -/
theorem main_render_loop_step (env : Env) (p : GLuint) (w : Pointer) (fuel : Nat)
    (h : List Event) (hc : env.glfwWindowShouldClose h w = 0) :
    main_render_loop env p w (fuel + 1) h =
      ⟨(main_render_loop env p w fuel
          (h ++ (Event.glfwWindowShouldClose w 0 ::
            main_loop_body env p w (h ++ [Event.glfwWindowShouldClose w 0])))).val,
       Event.glfwWindowShouldClose w 0 ::
         main_loop_body env p w (h ++ [Event.glfwWindowShouldClose w 0]) ++
       (main_render_loop env p w fuel
          (h ++ (Event.glfwWindowShouldClose w 0 ::
            main_loop_body env p w (h ++ [Event.glfwWindowShouldClose w 0])))).trace⟩ := by
  simp [main_render_loop, hc]

/-- The trace of the render loop is a sequence of whole iterations, followed by
nothing (fuel used up) or by the one loop-top check that finds the flag set. -/
theorem main_render_loop_iterations (env : Env) (p : GLuint) (w : Pointer) (fuel : Nat)
    (h : List Event) :
    ∃ (iterations : List (List Event)) (tail : List Event),
      (main_render_loop env p w fuel h).trace = iterations.flatten ++ tail ∧
      ((tail = [] ∧ (main_render_loop env p w fuel h).val = false) ∨
        ∃ r, r ≠ 0 ∧ tail = [Event.glfwWindowShouldClose w r] ∧
          (main_render_loop env p w fuel h).val = true) ∧
      ∀ it ∈ iterations, ∃ (key : Int) (resizes : List (Int × Int)),
        it = [Event.glfwWindowShouldClose w 0, Event.glfwGetKey w GLFW_KEY_ESCAPE key] ++
          (if key = GLFW_PRESS then [Event.glfwSetWindowShouldClose w 1] else []) ++
          [Event.glClearColor ⟨2, 1⟩ ⟨3, 1⟩ ⟨3, 1⟩ ⟨10, 1⟩,
           Event.glClear GL_COLOR_BUFFER_BIT,
           Event.glUseProgram p,
           Event.glDrawMeshTasksNV 0 1,
           Event.glfwSwapBuffers w,
           Event.glfwPollEvents] ++
          resizes.map (fun wh => Event.glViewport 0 0 wh.1 wh.2) := by
  induction fuel generalizing h with
  | zero => exact ⟨[], [], rfl, Or.inl ⟨rfl, rfl⟩, by simp⟩
  | succ n ih =>
    by_cases hc : env.glfwWindowShouldClose h w = 0
    · obtain ⟨its, tail, htr, htail, hits⟩ := ih
        (h ++ (Event.glfwWindowShouldClose w 0 ::
          main_loop_body env p w (h ++ [Event.glfwWindowShouldClose w 0])))
      obtain ⟨resizes, hbody⟩ :=
        main_loop_body_eq env p w (h ++ [Event.glfwWindowShouldClose w 0])
      refine ⟨(Event.glfwWindowShouldClose w 0 ::
          main_loop_body env p w (h ++ [Event.glfwWindowShouldClose w 0])) :: its,
        tail, ?_, ?_, ?_⟩
      · rw [main_render_loop_step env p w n h hc]
        simp [htr]
      · rw [main_render_loop_step env p w n h hc]
        exact htail
      · intro it hit
        rcases List.mem_cons.mp hit with rfl | hit
        · exact ⟨env.glfwGetKey (h ++ [Event.glfwWindowShouldClose w 0]) w GLFW_KEY_ESCAPE,
            resizes, by rw [hbody]; simp⟩
        · exact hits it hit
    · refine ⟨[], [Event.glfwWindowShouldClose w (env.glfwWindowShouldClose h w)], ?_, ?_, ?_⟩
      · rw [main_render_loop_exit env p w n h hc]; rfl
      · rw [main_render_loop_exit env p w n h hc]
        exact Or.inr ⟨_, hc, rfl, rfl⟩
      · simp

/-- Reading the keys of two traces in sequence. -/
theorem observed_keys_append (l1 l2 : List Event) :
    observed_keys (l1 ++ l2) = observed_keys l1 ++ observed_keys l2 := by
  induction l1 with
  | nil => rfl
  | cons e l ih => cases e <;> simp [observed_keys, ih]

/-- Resize callbacks read no key. -/
theorem observed_keys_viewports (resizes : List (Int × Int)) :
    observed_keys (resizes.map (fun wh => Event.glViewport 0 0 wh.1 wh.2)) = [] := by
  induction resizes with
  | nil => rfl
  | cons a l ih => simpa [observed_keys] using ih

/-- Resize callbacks issue nothing but `glViewport`. -/
theorem count_viewports (e : Event) (he : ∀ x y a b, e ≠ Event.glViewport x y a b)
    (resizes : List (Int × Int)) :
    List.count e (resizes.map (fun wh => Event.glViewport 0 0 wh.1 wh.2)) = 0 := by
  rw [List.count_eq_zero]
  intro hmem
  obtain ⟨wh, _, hwh⟩ := List.mem_map.mp hmem
  exact he _ _ _ _ hwh.symm

/-- Once the loop has been left through its condition, more fuel changes
nothing. -/
theorem main_render_loop_fuel (env : Env) (p : GLuint) (w : Pointer) :
    ∀ (fuel fuel' : Nat) (h : List Event), fuel ≤ fuel' →
      (main_render_loop env p w fuel h).val = true →
      main_render_loop env p w fuel' h = main_render_loop env p w fuel h := by
  intro fuel
  induction fuel with
  | zero => intro fuel' h _ hv; simp [main_render_loop] at hv
  | succ n ih =>
    intro fuel' h hle hv
    obtain ⟨m, rfl⟩ : ∃ m, fuel' = m + 1 := ⟨fuel' - 1, by omega⟩
    by_cases hc : env.glfwWindowShouldClose h w = 0
    · rw [main_render_loop_step env p w n h hc] at hv ⊢
      rw [main_render_loop_step env p w m h hc]
      simp only at hv
      rw [ih m _ (by omega) hv]
    · rw [main_render_loop_exit env p w n h hc, main_render_loop_exit env p w m h hc]

/-- The quit scenario by induction on the number of iterations before the one
in which Escape is down. -/
theorem quit_key_aux (env : Env) (p : GLuint) (w : Pointer) :
    ∀ (n fuel : Nat) (h : List Event),
      n + 1 < fuel →
      (∀ t, env.glfwWindowShouldClose (h ++ t) w ≠ 0 ↔
        Event.glfwSetWindowShouldClose w 1 ∈ t) →
      (∀ t, List.count Event.glfwPollEvents t < n →
        env.glfwGetKey (h ++ t) w GLFW_KEY_ESCAPE ≠ GLFW_PRESS) →
      (∀ t, List.count Event.glfwPollEvents t = n →
        env.glfwGetKey (h ++ t) w GLFW_KEY_ESCAPE = GLFW_PRESS) →
      (main_render_loop env p w fuel h).val = true ∧
      List.count (Event.glfwSwapBuffers w) (main_render_loop env p w fuel h).trace = n + 1 ∧
      List.count (Event.glDrawMeshTasksNV 0 1) (main_render_loop env p w fuel h).trace =
        n + 1 ∧
      List.count (Event.glClear GL_COLOR_BUFFER_BIT) (main_render_loop env p w fuel h).trace =
        n + 1 ∧
      List.count (Event.glfwWindowShouldClose w 0) (main_render_loop env p w fuel h).trace =
        n + 1 ∧
      (∃ (earlier : List Event) (resizes : List (Int × Int)) (r : Int), r ≠ 0 ∧
        (main_render_loop env p w fuel h).trace =
          earlier ++
          [Event.glfwGetKey w GLFW_KEY_ESCAPE GLFW_PRESS,
           Event.glfwSetWindowShouldClose w 1,
           Event.glClearColor ⟨2, 1⟩ ⟨3, 1⟩ ⟨3, 1⟩ ⟨10, 1⟩,
           Event.glClear GL_COLOR_BUFFER_BIT,
           Event.glUseProgram p,
           Event.glDrawMeshTasksNV 0 1,
           Event.glfwSwapBuffers w,
           Event.glfwPollEvents] ++
          resizes.map (fun wh => Event.glViewport 0 0 wh.1 wh.2) ++
          [Event.glfwWindowShouldClose w r]) ∧
      (∃ before : List Int,
        observed_keys (main_render_loop env p w fuel h).trace = before ++ [GLFW_PRESS] ∧
        before.length = n ∧ ∀ k ∈ before, k ≠ GLFW_PRESS) := by
  intro n
  induction n with
  | zero =>
    intro fuel h hfuel hflag _ hat
    obtain ⟨f, rfl⟩ : ∃ f, fuel = f + 2 := ⟨fuel - 2, by omega⟩
    have hc0 : env.glfwWindowShouldClose h w = 0 := by
      have := hflag []
      simpa using this
    obtain ⟨resizes, hbody⟩ :=
      main_loop_body_eq env p w (h ++ [Event.glfwWindowShouldClose w 0])
    rw [main_render_loop_step env p w (f + 1) h hc0]
    have hkp : env.glfwGetKey (h ++ [Event.glfwWindowShouldClose w 0]) w GLFW_KEY_ESCAPE
        = GLFW_PRESS := hat [Event.glfwWindowShouldClose w 0] (by simp)
    rw [hkp] at hbody
    simp only [if_true] at hbody
    have hc1 : env.glfwWindowShouldClose
        (h ++ (Event.glfwWindowShouldClose w 0 ::
          main_loop_body env p w (h ++ [Event.glfwWindowShouldClose w 0]))) w ≠ 0 :=
      (hflag _).mpr (by rw [hbody]; simp)
    rw [main_render_loop_exit env p w f _ hc1]
    generalize env.glfwWindowShouldClose
        (h ++ (Event.glfwWindowShouldClose w 0 ::
          main_loop_body env p w (h ++ [Event.glfwWindowShouldClose w 0]))) w = r at hc1
    rw [hbody]
    have hv1 := count_viewports (Event.glfwSwapBuffers w) (by simp) resizes
    have hv2 := count_viewports (Event.glDrawMeshTasksNV 0 1) (by simp) resizes
    have hv3 := count_viewports (Event.glClear GL_COLOR_BUFFER_BIT) (by simp) resizes
    have hv4 := count_viewports (Event.glfwWindowShouldClose w 0) (by simp) resizes
    refine ⟨rfl, ?_, ?_, ?_, ?_, ?_, ?_⟩
    · simp [List.count_cons, List.count_append, hv1]
    · simp [List.count_cons, List.count_append, hv2]
    · simp [List.count_cons, List.count_append, hv3]
    · simp [List.count_cons, List.count_append, hv4, hc1]
    · exact ⟨[Event.glfwWindowShouldClose w 0], resizes, r, hc1, by simp⟩
    · exact ⟨[], by simp [observed_keys, observed_keys_append, observed_keys_viewports],
        rfl, by simp⟩
  | succ n ih =>
    intro fuel h hfuel hflag hbefore hat
    obtain ⟨f, rfl⟩ : ∃ f, fuel = f + 1 := ⟨fuel - 1, by omega⟩
    have hc0 : env.glfwWindowShouldClose h w = 0 := by
      have := hflag []
      simpa using this
    obtain ⟨resizes, hbody⟩ :=
      main_loop_body_eq env p w (h ++ [Event.glfwWindowShouldClose w 0])
    rw [main_render_loop_step env p w f h hc0]
    have hb : env.glfwGetKey (h ++ [Event.glfwWindowShouldClose w 0]) w GLFW_KEY_ESCAPE
        ≠ GLFW_PRESS := hbefore [Event.glfwWindowShouldClose w 0] (by simp)
    generalize env.glfwGetKey (h ++ [Event.glfwWindowShouldClose w 0]) w GLFW_KEY_ESCAPE
      = key at hbody hb
    simp only [hb, if_false] at hbody
    have hv0 := count_viewports Event.glfwPollEvents (by simp) resizes
    have hpolls : List.count Event.glfwPollEvents
        (Event.glfwWindowShouldClose w 0 ::
          main_loop_body env p w (h ++ [Event.glfwWindowShouldClose w 0])) = 1 := by
      rw [hbody]
      simp [List.count_cons, List.count_append, hv0]
    have hflag2 : ∀ t, env.glfwWindowShouldClose
        ((h ++ (Event.glfwWindowShouldClose w 0 ::
          main_loop_body env p w (h ++ [Event.glfwWindowShouldClose w 0]))) ++ t) w ≠ 0 ↔
        Event.glfwSetWindowShouldClose w 1 ∈ t := by
      intro t
      rw [List.append_assoc, hflag, hbody]
      simp
    have hbefore2 : ∀ t, List.count Event.glfwPollEvents t < n →
        env.glfwGetKey ((h ++ (Event.glfwWindowShouldClose w 0 ::
          main_loop_body env p w (h ++ [Event.glfwWindowShouldClose w 0]))) ++ t) w
          GLFW_KEY_ESCAPE ≠ GLFW_PRESS := by
      intro t ht
      rw [List.append_assoc]
      exact hbefore _ (by rw [List.count_append, hpolls]; omega)
    have hat2 : ∀ t, List.count Event.glfwPollEvents t = n →
        env.glfwGetKey ((h ++ (Event.glfwWindowShouldClose w 0 ::
          main_loop_body env p w (h ++ [Event.glfwWindowShouldClose w 0]))) ++ t) w
          GLFW_KEY_ESCAPE = GLFW_PRESS := by
      intro t ht
      rw [List.append_assoc]
      exact hat _ (by rw [List.count_append, hpolls]; omega)
    obtain ⟨hval, hs, hd, hcl, hck, ⟨earlier, rz, r, hr, htr⟩, ⟨before, hobs, hlen, hne⟩⟩ :=
      ih f _ (by omega) hflag2 hbefore2 hat2
    generalize main_render_loop env p w f _ = rest at hval hs hd hcl hck htr hobs ⊢
    simp only []
    have hv1 := count_viewports (Event.glfwSwapBuffers w) (by simp) resizes
    have hv2 := count_viewports (Event.glDrawMeshTasksNV 0 1) (by simp) resizes
    have hv3 := count_viewports (Event.glClear GL_COLOR_BUFFER_BIT) (by simp) resizes
    have hv4 := count_viewports (Event.glfwWindowShouldClose w 0) (by simp) resizes
    refine ⟨hval, ?_, ?_, ?_, ?_, ?_, ?_⟩
    · simp only [List.count_append, List.count_cons, hs, hbody]
      simp [hv1]; omega
    · simp only [List.count_append, List.count_cons, hd, hbody]
      simp [hv2]; omega
    · simp only [List.count_append, List.count_cons, hcl, hbody]
      simp [hv3]; omega
    · simp only [List.count_append, List.count_cons, hck, hbody]
      simp [hv4]; omega
    · refine ⟨Event.glfwWindowShouldClose w 0 ::
          main_loop_body env p w (h ++ [Event.glfwWindowShouldClose w 0]) ++ earlier,
        rz, r, hr, ?_⟩
      simp only [htr]
      simp
    · refine ⟨key :: before, ?_, by simp [hlen], ?_⟩
      · rw [hbody]
        simp [observed_keys, observed_keys_append, observed_keys_viewports, hobs]
      · intro k hk
        rcases List.mem_cons.mp hk with rfl | hk
        · exact hb
        · exact hne k hk

/-- C5: let the should-close flag be false when the loop starts and change only
through the `glfwSetWindowShouldClose` call of `process_input` (`hflag`), let the
window system report Escape as not pressed to every `glfwGetKey` made while
fewer than `N - 1` iterations are complete (`hbefore`) and as pressed to every
one made in iteration `N ≥ 1` (`hat`); iterations are counted by the completed
`glfwPollEvents` calls.  Then, with fuel for more than `N` loop-top checks, the
loop is left through its condition; `process_input` reads `N` key states, the
last one pressed and none before it; iteration `N` still clears, draws and
presents after the key was read, and the next event is the loop-top check that
finds the flag set; exactly `N` checks found it clear, and `glfwSwapBuffers`,
`glDrawMeshTasksNV(0, 1)` and `glClear` were each called exactly `N` times.  More
fuel gives the same run. -/
theorem quit_key_completes_frame (env : Env) (p : GLuint) (w : Pointer) (N fuel : Nat)
    (h : List Event) (hN : 1 ≤ N) (hfuel : N < fuel)
    (hflag : ∀ t, env.glfwWindowShouldClose (h ++ t) w ≠ 0 ↔
      Event.glfwSetWindowShouldClose w 1 ∈ t)
    (hbefore : ∀ t, List.count Event.glfwPollEvents t + 1 < N →
      env.glfwGetKey (h ++ t) w GLFW_KEY_ESCAPE ≠ GLFW_PRESS)
    (hat : ∀ t, List.count Event.glfwPollEvents t + 1 = N →
      env.glfwGetKey (h ++ t) w GLFW_KEY_ESCAPE = GLFW_PRESS) :
    (main_render_loop env p w fuel h).val = true ∧
    List.count (Event.glfwSwapBuffers w) (main_render_loop env p w fuel h).trace = N ∧
    List.count (Event.glDrawMeshTasksNV 0 1) (main_render_loop env p w fuel h).trace = N ∧
    List.count (Event.glClear GL_COLOR_BUFFER_BIT) (main_render_loop env p w fuel h).trace = N ∧
    List.count (Event.glfwWindowShouldClose w 0) (main_render_loop env p w fuel h).trace = N ∧
    (∃ (earlier : List Event) (resizes : List (Int × Int)) (r : Int), r ≠ 0 ∧
      (main_render_loop env p w fuel h).trace =
        earlier ++
        [Event.glfwGetKey w GLFW_KEY_ESCAPE GLFW_PRESS,
         Event.glfwSetWindowShouldClose w 1,
         Event.glClearColor ⟨2, 1⟩ ⟨3, 1⟩ ⟨3, 1⟩ ⟨10, 1⟩,
         Event.glClear GL_COLOR_BUFFER_BIT,
         Event.glUseProgram p,
         Event.glDrawMeshTasksNV 0 1,
         Event.glfwSwapBuffers w,
         Event.glfwPollEvents] ++
        resizes.map (fun wh => Event.glViewport 0 0 wh.1 wh.2) ++
        [Event.glfwWindowShouldClose w r]) ∧
    (∃ before : List Int,
      observed_keys (main_render_loop env p w fuel h).trace = before ++ [GLFW_PRESS] ∧
      before.length + 1 = N ∧ ∀ k ∈ before, k ≠ GLFW_PRESS) ∧
    (∀ fuel', fuel ≤ fuel' →
      main_render_loop env p w fuel' h = main_render_loop env p w fuel h) := by
  obtain ⟨n, rfl⟩ : ∃ n, N = n + 1 := ⟨N - 1, by omega⟩
  obtain ⟨hval, hs, hd, hcl, hck, hend, before, hobs, hlen, hne⟩ :=
    quit_key_aux env p w n fuel h hfuel hflag
      (fun t ht => hbefore t (by omega)) (fun t ht => hat t (by omega))
  exact ⟨hval, hs, hd, hcl, hck, hend, ⟨before, hobs, by omega, hne⟩,
    fun fuel' hle => main_render_loop_fuel env p w fuel fuel' h hle hval⟩

/-- C5 at concrete window systems: with Escape down in iteration 2 the loop
presents exactly 2 frames, with Escape down in iteration 1 exactly 1, and with
Escape down in iteration 3 exactly 3. -/
theorem quit_key_completes_frame_witness :
    List.count (Event.glfwSwapBuffers 1)
      (main_render_loop (quit_in_iteration 2) 7 1 3 []).trace = 2 ∧
    List.count (Event.glfwSwapBuffers 1)
      (main_render_loop (quit_in_iteration 1) 7 1 3 []).trace = 1 ∧
    List.count (Event.glfwSwapBuffers 1)
      (main_render_loop (quit_in_iteration 3) 7 1 4 []).trace = 3 :=
  ⟨(quit_key_completes_frame (quit_in_iteration 2) 7 1 2 3 [] (by decide) (by decide)
      (by intro t; simp [quit_in_iteration])
      (by intro t ht; simp [quit_in_iteration, GLFW_PRESS]; omega)
      (by intro t ht; simp [quit_in_iteration]; intro hne; omega)).2.1,
   (quit_key_completes_frame (quit_in_iteration 1) 7 1 1 3 [] (by decide) (by decide)
      (by intro t; simp [quit_in_iteration])
      (by intro t ht; simp [quit_in_iteration, GLFW_PRESS]; omega)
      (by intro t ht; simp [quit_in_iteration]; intro hne; omega)).2.1,
   (quit_key_completes_frame (quit_in_iteration 3) 7 1 3 4 [] (by decide) (by decide)
      (by intro t; simp [quit_in_iteration])
      (by intro t ht; simp [quit_in_iteration, GLFW_PRESS]; omega)
      (by intro t ht; simp [quit_in_iteration]; intro hne; omega)).2.1⟩

/-! ### `main` -/

/-- The runs of `main`: what the platform returned decides between seven
shapes. -/
theorem main_cases (env : Env) (h : List Event) :
    ∃ (init : Int) (window : Pointer) (loaded : Int) (mesh fragment program : Res GLuint)
      (h1 h2 h3 h4 : List Event),
      mesh = create_shader_from_string env GL_MESH_SHADER_NV MeshShader h1 ∧
      fragment = create_shader_from_string env GL_FRAGMENT_SHADER FragmentShader h2 ∧
      program = create_program env mesh.val fragment.val h3 ∧
      ∀ fuel : Nat,
        (window = 0 ∧ main env fuel h =
          ⟨Outcome.returned (-1),
           window_calls init window ++
             [Event.printf "Failed to create GLFW window\n" [], Event.glfwTerminate],
           none, none, none⟩) ∨
        (window ≠ 0 ∧ loaded = 0 ∧ main env fuel h =
          ⟨Outcome.returned (-1),
           window_calls init window ++ context_calls window loaded ++
             [Event.printf "Failed to initialize GLAD\n" []],
           none, none, none⟩) ∨
        (window ≠ 0 ∧ loaded ≠ 0 ∧ mesh.val = 0 ∧ main env fuel h =
          ⟨Outcome.aborted,
           window_calls init window ++ context_calls window loaded ++
             [Event.glViewport 0 0 800 600] ++ mesh.trace,
           some mesh.val, none, none⟩) ∨
        (window ≠ 0 ∧ loaded ≠ 0 ∧ mesh.val ≠ 0 ∧ fragment.val = 0 ∧ main env fuel h =
          ⟨Outcome.aborted,
           window_calls init window ++ context_calls window loaded ++
             [Event.glViewport 0 0 800 600] ++ mesh.trace ++ fragment.trace,
           some mesh.val, some fragment.val, none⟩) ∨
        (window ≠ 0 ∧ loaded ≠ 0 ∧ mesh.val ≠ 0 ∧ fragment.val ≠ 0 ∧ program.val = 0 ∧
          main env fuel h =
          ⟨Outcome.aborted,
           window_calls init window ++ context_calls window loaded ++
             [Event.glViewport 0 0 800 600] ++ mesh.trace ++ fragment.trace ++ program.trace,
           some mesh.val, some fragment.val, some program.val⟩) ∨
        (window ≠ 0 ∧ loaded ≠ 0 ∧ mesh.val ≠ 0 ∧ fragment.val ≠ 0 ∧ program.val ≠ 0 ∧
          (main_render_loop env program.val window fuel h4).val = true ∧
          main env fuel h =
          ⟨Outcome.returned 0,
           window_calls init window ++ context_calls window loaded ++
             [Event.glViewport 0 0 800 600] ++ mesh.trace ++ fragment.trace ++ program.trace ++
             (main_render_loop env program.val window fuel h4).trace ++ [Event.glfwTerminate],
           some mesh.val, some fragment.val, some program.val⟩) ∨
        (window ≠ 0 ∧ loaded ≠ 0 ∧ mesh.val ≠ 0 ∧ fragment.val ≠ 0 ∧ program.val ≠ 0 ∧
          (main_render_loop env program.val window fuel h4).val = false ∧
          main env fuel h =
          ⟨Outcome.running,
           window_calls init window ++ context_calls window loaded ++
             [Event.glViewport 0 0 800 600] ++ mesh.trace ++ fragment.trace ++ program.trace ++
             (main_render_loop env program.val window fuel h4).trace,
           some mesh.val, some fragment.val, some program.val⟩) := by
  have e : ∀ fuel, main env fuel h = main env fuel h := fun _ => rfl
  conv at e => intro fuel; rhs; unfold main
  simp only [] at e
  generalize env.glfwInit h = init at e
  generalize env.glfwCreateWindow _ 800 600 "Hello Meshshader" = window at e
  generalize env.gladLoadGLLoader _ = loaded at e
  generalize hmesh : create_shader_from_string env GL_MESH_SHADER_NV MeshShader _ = mesh at e
  generalize hfrag :
    create_shader_from_string env GL_FRAGMENT_SHADER FragmentShader _ = fragment at e
  generalize hprog : create_program env mesh.val fragment.val _ = program at e
  generalize h ++ _ = h4 at e
  refine ⟨init, window, loaded, mesh, fragment, program, _, _, _, h4,
    hmesh.symm, hfrag.symm, hprog.symm, fun fuel => ?_⟩
  rw [e fuel]
  by_cases hw : window = 0
  · simp [hw, window_calls]
  by_cases hl : loaded = 0
  · simp [hw, hl, window_calls, context_calls]
  by_cases hm : mesh.val = 0
  · simp [hw, hl, hm, window_calls, context_calls]
  by_cases hf : fragment.val = 0
  · simp [hw, hl, hm, hf, window_calls, context_calls]
  by_cases hp : program.val = 0
  · simp [hw, hl, hm, hf, hp, window_calls, context_calls]
  by_cases hv : (main_render_loop env program.val window fuel h4).val = true
  · simp [hw, hl, hm, hf, hp, hv, window_calls, context_calls]
  · simp [hw, hl, hm, hf, hp, hv, window_calls, context_calls]

/-- A builder call is neither a loop call, nor a start-up call, nor `glfwTerminate`. -/
theorem builder_call_kinds (e : Event) (he : e.isBuilderCall = true) :
    e.isLoopCall = false ∧ e.isStartupCall = false ∧ e ≠ Event.glfwTerminate := by
  cases e <;> simp_all [Event.isBuilderCall, Event.isLoopCall, Event.isStartupCall]

/-- `create_shader_from_string` issues builder calls only. -/
theorem create_shader_from_string_calls (env : Env) (shader_type : GLenum)
    (source : String) (h : List Event) :
    ∀ e ∈ (create_shader_from_string env shader_type source h).trace,
      e.isBuilderCall = true := by
  obtain ⟨s', len, c', buf, log, hcases⟩ :=
    create_shader_from_string_cases env shader_type source h
  rcases hcases with ⟨_, e⟩ | ⟨_, _, e⟩ | ⟨_, _, e⟩ | ⟨_, _, e⟩ | ⟨_, _, _, e⟩ <;>
  rw [e] <;> simp [Event.isBuilderCall]

/-- `create_program` issues builder calls only. -/
theorem create_program_calls (env : Env) (m f : GLuint) (h : List Event) :
    ∀ e ∈ (create_program env m f h).trace, e.isBuilderCall = true := by
  obtain ⟨p', ls', len, buf, log, hc⟩ := create_program_cases env m f h
  rcases hc with ⟨_, e⟩ | ⟨_, _, _, e⟩ | ⟨_, _, _, _, e⟩ | ⟨_, _, _, _, _, e⟩ |
    ⟨_, _, _, _, _, e⟩ | ⟨_, _, _, _, _, _, e⟩ <;>
  rw [e] <;> simp [Event.isBuilderCall]

/-- A non-null handle comes out of `create_program` only after the driver
created that object and reported `GL_TRUE` for its `GL_LINK_STATUS`. -/
theorem create_program_nonnull (env : Env) (m f : GLuint) (h : List Event)
    (hv : (create_program env m f h).val ≠ 0) :
    Event.glCreateProgram (create_program env m f h).val ∈ (create_program env m f h).trace ∧
    Event.glGetProgramiv (create_program env m f h).val GL_LINK_STATUS GL_TRUE ∈
      (create_program env m f h).trace := by
  obtain ⟨p', ls', len, buf, log, hc⟩ := create_program_cases env m f h
  rcases hc with ⟨_, e⟩ | ⟨_, _, _, e⟩ | ⟨_, _, _, hls, e⟩ | ⟨_, _, _, _, _, e⟩ |
    ⟨_, _, _, _, _, e⟩ | ⟨_, _, _, _, _, _, e⟩ <;>
  rw [e] at hv ⊢ <;> simp_all

/-- An event that is not in `A` splits `A ++ X` inside `X`. -/
theorem split_after_prefix (d : Event) (A X pre post : List Event) (hd : d ∉ A)
    (hsplit : A ++ X = pre ++ d :: post) :
    ∃ pre', pre = A ++ pre' ∧ X = pre' ++ d :: post := by
  rcases List.append_eq_append_iff.mp hsplit with ⟨a', h1, h2⟩ | ⟨c', h1, h2⟩
  · exact ⟨a', h1, h2⟩
  · cases c' with
    | nil => exact ⟨[], by simpa using h1.symm, by simpa using h2.symm⟩
    | cons x c'' =>
      have hx : d = x := by simpa using (List.cons_eq_cons.mp h2).1
      subst hx
      exact absurd (by rw [h1]; simp) hd

/-- The loop body issues no start-up call, no builder call and no `glfwTerminate`. -/
theorem main_loop_body_startup_free (env : Env) (p : GLuint) (w : Pointer)
    (h : List Event) :
    ∀ e ∈ main_loop_body env p w h,
      e.isStartupCall = false ∧ e.isBuilderCall = false ∧ e ≠ Event.glfwTerminate := by
  intro e he
  obtain ⟨resizes, hbody⟩ := main_loop_body_eq env p w h
  rw [hbody] at he
  by_cases hk : env.glfwGetKey h w GLFW_KEY_ESCAPE = GLFW_PRESS <;>
  simp [hk] at he <;>
  casesm* _ ∨ _, ∃ _, _, _ ∧ _ <;>
  subst_vars <;>
  simp [Event.isStartupCall, Event.isBuilderCall]

/-- The loop issues no start-up call, no builder call and no `glfwTerminate`. -/
theorem main_render_loop_startup_free (env : Env) (p : GLuint) (w : Pointer) :
    ∀ (fuel : Nat) (h : List Event), ∀ e ∈ (main_render_loop env p w fuel h).trace,
      e.isStartupCall = false ∧ e.isBuilderCall = false ∧ e ≠ Event.glfwTerminate := by
  intro fuel
  induction fuel with
  | zero => intro h e he; simp [main_render_loop] at he
  | succ n ih =>
    intro h e he
    by_cases hc : env.glfwWindowShouldClose h w = 0
    · rw [main_render_loop_step env p w n h hc] at he
      rcases List.mem_append.mp he with he | he
      · rcases List.mem_cons.mp he with rfl | he
        · simp [Event.isStartupCall, Event.isBuilderCall]
        · exact main_loop_body_startup_free env p w _ e he
      · exact ih _ e he
    · rw [main_render_loop_exit env p w n h hc] at he
      simp at he
      subst he
      simp [Event.isStartupCall, Event.isBuilderCall]

/-- The loop body makes no loop-top check and binds only the program it was given. -/
theorem main_loop_body_events (env : Env) (p : GLuint) (w : Pointer) (h : List Event) :
    ∀ e ∈ main_loop_body env p w h,
      (∀ w' r, e ≠ Event.glfwWindowShouldClose w' r) ∧ (∀ q, e = Event.glUseProgram q → q = p) := by
  intro e he
  obtain ⟨resizes, hbody⟩ := main_loop_body_eq env p w h
  rw [hbody] at he
  by_cases hk : env.glfwGetKey h w GLFW_KEY_ESCAPE = GLFW_PRESS <;>
  simp [hk] at he <;>
  casesm* _ ∨ _, ∃ _, _, _ ∧ _ <;>
  subst_vars <;>
  simp

/-- Every `glUseProgram` of the loop binds the program the loop was given. -/
theorem main_render_loop_binds (env : Env) (p : GLuint) (w : Pointer) :
    ∀ (fuel : Nat) (h : List Event) (q : GLuint),
      Event.glUseProgram q ∈ (main_render_loop env p w fuel h).trace → q = p := by
  intro fuel
  induction fuel with
  | zero => intro h q he; simp [main_render_loop] at he
  | succ n ih =>
    intro h q he
    by_cases hc : env.glfwWindowShouldClose h w = 0
    · rw [main_render_loop_step env p w n h hc] at he
      rcases List.mem_append.mp he with he | he
      · rcases List.mem_cons.mp he with he | he
        · simp at he
        · exact (main_loop_body_events env p w _ _ he).2 q rfl
      · exact ih _ q he
    · rw [main_render_loop_exit env p w n h hc] at he
      simp at he

/-- The loop is left through its condition exactly when some loop-top check
finds the should-close flag set. -/
theorem main_render_loop_closed (env : Env) (p : GLuint) (w : Pointer) :
    ∀ (fuel : Nat) (h : List Event),
      (main_render_loop env p w fuel h).val = true ↔
        ∃ w' r, r ≠ 0 ∧
          Event.glfwWindowShouldClose w' r ∈ (main_render_loop env p w fuel h).trace := by
  intro fuel
  induction fuel with
  | zero => intro h; simp [main_render_loop]
  | succ n ih =>
    intro h
    by_cases hc : env.glfwWindowShouldClose h w = 0
    · rw [main_render_loop_step env p w n h hc]
      simp only []
      rw [ih]
      constructor
      · rintro ⟨w', r, hr, hmem⟩
        exact ⟨w', r, hr, List.mem_append_right _ hmem⟩
      · rintro ⟨w', r, hr, hmem⟩
        rcases List.mem_append.mp hmem with he | he
        · rcases List.mem_cons.mp he with he | he
          · simp at he; exact absurd he.2 hr
          · exact absurd rfl ((main_loop_body_events env p w _ _ he).1 w' r)
        · exact ⟨w', r, hr, he⟩
    · rw [main_render_loop_exit env p w n h hc]
      simp only [true_iff]
      exact ⟨w, _, hc, by simp⟩

/-- In the loop, every `glDrawMeshTasksNV` comes after a `glUseProgram` of the
program the loop was given. -/
theorem main_render_loop_draw_bound (env : Env) (p : GLuint) (w : Pointer) :
    ∀ (fuel : Nat) (h : List Event) (pre post : List Event) (a b : GLuint),
      (main_render_loop env p w fuel h).trace = pre ++ Event.glDrawMeshTasksNV a b :: post →
      Event.glUseProgram p ∈ pre := by
  intro fuel h pre post a b hsplit
  cases fuel with
  | zero =>
    have hmem : Event.glDrawMeshTasksNV a b ∈ (main_render_loop env p w 0 h).trace := by
      rw [hsplit]; simp
    simp [main_render_loop] at hmem
  | succ n =>
    by_cases hc : env.glfwWindowShouldClose h w = 0
    · rw [main_render_loop_step env p w n h hc] at hsplit
      obtain ⟨resizes, hbody⟩ :=
        main_loop_body_eq env p w (h ++ [Event.glfwWindowShouldClose w 0])
      generalize main_render_loop env p w n _ = rest at hsplit
      rw [hbody] at hsplit
      generalize env.glfwGetKey (h ++ [Event.glfwWindowShouldClose w 0]) w GLFW_KEY_ESCAPE
        = key at hsplit
      simp only [] at hsplit
      have hsplit2 :
          ([Event.glfwWindowShouldClose w 0, Event.glfwGetKey w GLFW_KEY_ESCAPE key] ++
            (if key = GLFW_PRESS then [Event.glfwSetWindowShouldClose w 1] else []) ++
            [Event.glClearColor ⟨2, 1⟩ ⟨3, 1⟩ ⟨3, 1⟩ ⟨10, 1⟩,
             Event.glClear GL_COLOR_BUFFER_BIT]) ++
          (Event.glUseProgram p :: ([Event.glDrawMeshTasksNV 0 1, Event.glfwSwapBuffers w,
             Event.glfwPollEvents] ++
             resizes.map (fun wh => Event.glViewport 0 0 wh.1 wh.2) ++ rest.trace)) =
          pre ++ Event.glDrawMeshTasksNV a b :: post := by
        rw [← hsplit]; simp
      obtain ⟨pre', hpre, hX⟩ := split_after_prefix _ _ _ _ _
        (by by_cases hk : key = GLFW_PRESS <;> simp [hk]) hsplit2
      cases pre' with
      | nil => simp at hX
      | cons x xs =>
        have hx : Event.glUseProgram p = x := (List.cons_eq_cons.mp hX).1
        subst hx
        rw [hpre]; simp
    · rw [main_render_loop_exit env p w n h hc] at hsplit
      simp only [] at hsplit
      have hmem : Event.glDrawMeshTasksNV a b ∈
          [Event.glfwWindowShouldClose w (env.glfwWindowShouldClose h w)] := by
        rw [hsplit]; simp
      simp at hmem

/-- Nothing `main` does before the loop is a loop call. -/
theorem before_loop_calls (init : Int) (window : Pointer) (loaded : Int) (B : List Event)
    (hB : ∀ e ∈ B, e.isBuilderCall = true) :
    ∀ e ∈ window_calls init window ++ context_calls window loaded ++
        [Event.glViewport 0 0 800 600] ++ B,
      e.isLoopCall = false := by
  intro e he
  rcases List.mem_append.mp he with he | he
  · simp [window_calls, context_calls] at he
    casesm* _ ∨ _ <;> subst_vars <;> simp [Event.isLoopCall]
  · exact (builder_call_kinds e (hB e he)).1

/-- An event that is not in `T` splits `L ++ T` inside `L`. -/
theorem split_before_tail (d : Event) (L T pre post : List Event) (hd : d ∉ T)
    (hsplit : L ++ T = pre ++ d :: post) :
    ∃ post', L = pre ++ d :: post' := by
  rcases List.append_eq_append_iff.mp hsplit with ⟨a', _, h2⟩ | ⟨c', h1, h2⟩
  · exact absurd (by rw [h2]; simp) hd
  · cases c' with
    | nil => exact absurd (by rw [← List.nil_append T, ← h2]; simp) hd
    | cons x c'' =>
      have hx : d = x := (List.cons_eq_cons.mp h2).1
      subst hx
      exact ⟨c'', h1⟩

/-- C6: in every run of `main`, (1) if `create_shader_from_string` returned 0
for the mesh or the fragment shader, or `create_program` returned 0, the run is
stopped by the assertion and contains no call of the render loop at all (no
loop-top check, no `glUseProgram`, no `glDrawMeshTasksNV`); (2) every
`glUseProgram` binds the non-null handle held by `gpu_program`; (3) before every
`glDrawMeshTasksNV` the driver created that program object, reported `GL_TRUE`
for its `GL_LINK_STATUS`, and the program was bound; (4) the three locals hold
what the two builders returned. -/
theorem main_never_draws_without_program (env : Env) (fuel : Nat) (h : List Event) :
    (((main env fuel h).mesh_shader = some 0 ∨ (main env fuel h).fragment_shader = some 0 ∨
        (main env fuel h).gpu_program = some 0) →
      (main env fuel h).outcome = Outcome.aborted ∧
      ∀ e ∈ (main env fuel h).trace, e.isLoopCall = false) ∧
    (∀ q, Event.glUseProgram q ∈ (main env fuel h).trace →
      q ≠ 0 ∧ (main env fuel h).gpu_program = some q) ∧
    (∀ pre post a b, (main env fuel h).trace = pre ++ Event.glDrawMeshTasksNV a b :: post →
      ∃ q, q ≠ 0 ∧ (main env fuel h).gpu_program = some q ∧
        Event.glCreateProgram q ∈ pre ∧
        Event.glGetProgramiv q GL_LINK_STATUS GL_TRUE ∈ pre ∧
        Event.glUseProgram q ∈ pre) ∧
    ((∀ m, (main env fuel h).mesh_shader = some m → ∃ h1,
        m = (create_shader_from_string env GL_MESH_SHADER_NV MeshShader h1).val) ∧
     (∀ f, (main env fuel h).fragment_shader = some f → ∃ h2,
        f = (create_shader_from_string env GL_FRAGMENT_SHADER FragmentShader h2).val) ∧
     (∀ q, (main env fuel h).gpu_program = some q → ∃ m f h3,
        (main env fuel h).mesh_shader = some m ∧ (main env fuel h).fragment_shader = some f ∧
        q = (create_program env m f h3).val)) := by
  obtain ⟨init, window, loaded, mesh, fragment, program, h1, h2, h3, h4, hm, hf, hp, hcases⟩ :=
    main_cases env h
  have hmB : ∀ e ∈ mesh.trace, e.isBuilderCall = true := by
    rw [hm]; exact create_shader_from_string_calls env _ _ _
  have hfB : ∀ e ∈ fragment.trace, e.isBuilderCall = true := by
    rw [hf]; exact create_shader_from_string_calls env _ _ _
  have hpB : ∀ e ∈ program.trace, e.isBuilderCall = true := by
    rw [hp]; exact create_program_calls env _ _ _
  have hmv' : mesh.val = (create_shader_from_string env GL_MESH_SHADER_NV MeshShader h1).val :=
    by rw [hm]
  have hfv' : fragment.val =
      (create_shader_from_string env GL_FRAGMENT_SHADER FragmentShader h2).val := by rw [hf]
  have hpv' : program.val = (create_program env mesh.val fragment.val h3).val := by rw [hp]
  -- the runs that never reach the loop
  have early : ∀ (B : List Event), (∀ e ∈ B, e.isBuilderCall = true) →
      (main env fuel h).trace = window_calls init window ++ context_calls window loaded ++
        [Event.glViewport 0 0 800 600] ++ B →
      (∀ e ∈ (main env fuel h).trace, e.isLoopCall = false) := by
    intro B hB e
    rw [e]
    exact before_loop_calls init window loaded B hB
  have noloop : (∀ e ∈ (main env fuel h).trace, e.isLoopCall = false) →
      (∀ q, Event.glUseProgram q ∈ (main env fuel h).trace →
        q ≠ 0 ∧ (main env fuel h).gpu_program = some q) ∧
      (∀ pre post a b, (main env fuel h).trace = pre ++ Event.glDrawMeshTasksNV a b :: post →
        ∃ q, q ≠ 0 ∧ (main env fuel h).gpu_program = some q ∧
          Event.glCreateProgram q ∈ pre ∧
          Event.glGetProgramiv q GL_LINK_STATUS GL_TRUE ∈ pre ∧
          Event.glUseProgram q ∈ pre) := by
    intro hnl
    constructor
    · intro q hq
      have := hnl _ hq
      simp [Event.isLoopCall] at this
    · intro pre post a b hsplit
      have := hnl (Event.glDrawMeshTasksNV a b) (by rw [hsplit]; simp)
      simp [Event.isLoopCall] at this
  rcases hcases fuel with ⟨hw, e⟩ | ⟨hw, hl, e⟩ | ⟨hw, hl, hmv, e⟩ | ⟨hw, hl, hmv, hfv, e⟩ |
    ⟨hw, hl, hmv, hfv, hpv, e⟩ | ⟨hw, hl, hmv, hfv, hpv, hlv, e⟩ |
    ⟨hw, hl, hmv, hfv, hpv, hlv, e⟩
  · have hnl : ∀ x ∈ (main env fuel h).trace, x.isLoopCall = false := by
      rw [e]; intro x hx
      simp [window_calls] at hx
      casesm* _ ∨ _ <;> subst_vars <;> simp [Event.isLoopCall]
    refine ⟨?_, (noloop hnl).1, (noloop hnl).2, ?_⟩
    · rw [e]; simp
    · rw [e]; simp
  · have hnl : ∀ x ∈ (main env fuel h).trace, x.isLoopCall = false := by
      rw [e]; intro x hx
      simp [window_calls, context_calls] at hx
      casesm* _ ∨ _ <;> subst_vars <;> simp [Event.isLoopCall]
    refine ⟨?_, (noloop hnl).1, (noloop hnl).2, ?_⟩
    · rw [e]; simp
    · rw [e]; simp
  · have hnl := early _ hmB (by rw [e])
    refine ⟨fun _ => ⟨by rw [e], hnl⟩, (noloop hnl).1, (noloop hnl).2, ?_⟩
    rw [e]; simp only []
    exact ⟨fun m hm' => ⟨h1, by rw [← hmv']; exact (Option.some.inj hm').symm⟩,
      by simp, by simp⟩
  · have hnl := early (mesh.trace ++ fragment.trace)
      (fun x hx => (List.mem_append.mp hx).elim (hmB x) (hfB x))
      (by rw [e]; simp [List.append_assoc])
    refine ⟨fun _ => ⟨by rw [e], hnl⟩, (noloop hnl).1, (noloop hnl).2, ?_⟩
    rw [e]; simp only []
    exact ⟨fun m hm' => ⟨h1, by rw [← hmv']; exact (Option.some.inj hm').symm⟩,
      fun f hf' => ⟨h2, by rw [← hfv']; exact (Option.some.inj hf').symm⟩, by simp⟩
  · have hnl := early (mesh.trace ++ fragment.trace ++ program.trace)
      (fun x hx => (List.mem_append.mp hx).elim
        (fun hx => (List.mem_append.mp hx).elim (hmB x) (hfB x)) (hpB x))
      (by rw [e]; simp [List.append_assoc])
    refine ⟨fun _ => ⟨by rw [e], hnl⟩, (noloop hnl).1, (noloop hnl).2, ?_⟩
    rw [e]; simp only []
    exact ⟨fun m hm' => ⟨h1, by rw [← hmv']; exact (Option.some.inj hm').symm⟩,
      fun f hf' => ⟨h2, by rw [← hfv']; exact (Option.some.inj hf').symm⟩,
      fun q hq => ⟨mesh.val, fragment.val, h3, rfl, rfl,
        by rw [← hpv']; exact (Option.some.inj hq).symm⟩⟩
  all_goals
    have hS : ∀ x ∈ window_calls init window ++ context_calls window loaded ++
        [Event.glViewport 0 0 800 600] ++ mesh.trace ++ fragment.trace ++ program.trace,
        x.isLoopCall = false := by
      have := before_loop_calls init window loaded
        (mesh.trace ++ fragment.trace ++ program.trace)
        (fun x hx => (List.mem_append.mp hx).elim
          (fun hx => (List.mem_append.mp hx).elim (hmB x) (hfB x)) (hpB x))
      simpa [List.append_assoc] using this
    have late : ∀ (o : Outcome) (T : List Event), (∀ x ∈ T, x = Event.glfwTerminate) →
        main env fuel h = ⟨o, window_calls init window ++ context_calls window loaded ++
          [Event.glViewport 0 0 800 600] ++ mesh.trace ++ fragment.trace ++ program.trace ++
          (main_render_loop env program.val window fuel h4).trace ++ T,
          some mesh.val, some fragment.val, some program.val⟩ →
        (((main env fuel h).mesh_shader = some 0 ∨ (main env fuel h).fragment_shader = some 0 ∨
            (main env fuel h).gpu_program = some 0) →
          (main env fuel h).outcome = Outcome.aborted ∧
          ∀ e ∈ (main env fuel h).trace, e.isLoopCall = false) ∧
        (∀ q, Event.glUseProgram q ∈ (main env fuel h).trace →
          q ≠ 0 ∧ (main env fuel h).gpu_program = some q) ∧
        (∀ pre post a b,
          (main env fuel h).trace = pre ++ Event.glDrawMeshTasksNV a b :: post →
          ∃ q, q ≠ 0 ∧ (main env fuel h).gpu_program = some q ∧
            Event.glCreateProgram q ∈ pre ∧
            Event.glGetProgramiv q GL_LINK_STATUS GL_TRUE ∈ pre ∧
            Event.glUseProgram q ∈ pre) ∧
        ((∀ m, (main env fuel h).mesh_shader = some m → ∃ h1,
            m = (create_shader_from_string env GL_MESH_SHADER_NV MeshShader h1).val) ∧
         (∀ f, (main env fuel h).fragment_shader = some f → ∃ h2,
            f = (create_shader_from_string env GL_FRAGMENT_SHADER FragmentShader h2).val) ∧
         (∀ q, (main env fuel h).gpu_program = some q → ∃ m f h3,
            (main env fuel h).mesh_shader = some m ∧
            (main env fuel h).fragment_shader = some f ∧
            q = (create_program env m f h3).val)) := by
      intro o T hT e'
      rw [e']
      simp only []
      refine ⟨?_, ?_, ?_, ?_⟩
      · rintro (h0 | h0 | h0)
        · exact absurd (Option.some.inj h0) hmv
        · exact absurd (Option.some.inj h0) hfv
        · exact absurd (Option.some.inj h0) hpv
      · intro q hq
        rcases List.mem_append.mp hq with hq | hq
        · rcases List.mem_append.mp hq with hq | hq
          · have := hS _ hq
            simp [Event.isLoopCall] at this
          · have hqp := main_render_loop_binds env program.val window fuel h4 q hq
            subst hqp
            exact ⟨hpv, rfl⟩
        · have := hT _ hq
          simp at this
      · intro pre post a b hsplit
        have hsplit1 : (window_calls init window ++ context_calls window loaded ++
            [Event.glViewport 0 0 800 600] ++ mesh.trace ++ fragment.trace ++ program.trace) ++
            ((main_render_loop env program.val window fuel h4).trace ++ T) =
            pre ++ Event.glDrawMeshTasksNV a b :: post := by
          rw [← hsplit]; simp only [List.append_assoc]
        obtain ⟨pre', hpre, hX⟩ := split_after_prefix _ _ _ pre post
          (fun hmem => by have := hS _ hmem; simp [Event.isLoopCall] at this) hsplit1
        obtain ⟨post', hL⟩ := split_before_tail _ _ T pre' post
          (fun hmem => by have := hT _ hmem; simp at this) hX
        have huse := main_render_loop_draw_bound env program.val window fuel h4
          pre' post' a b hL
        obtain ⟨hc1, hc2⟩ := create_program_nonnull env mesh.val fragment.val h3
          (by rw [← hpv']; exact hpv)
        rw [← hp] at hc1 hc2
        refine ⟨program.val, hpv, rfl, ?_, ?_, ?_⟩
        · rw [hpre]
          exact List.mem_append_left _ (List.mem_append_right _ hc1)
        · rw [hpre]
          exact List.mem_append_left _ (List.mem_append_right _ hc2)
        · rw [hpre]
          exact List.mem_append_right _ huse
      · exact ⟨fun m hm' => ⟨h1, by rw [← hmv']; exact (Option.some.inj hm').symm⟩,
          fun f hf' => ⟨h2, by rw [← hfv']; exact (Option.some.inj hf').symm⟩,
          fun q hq => ⟨mesh.val, fragment.val, h3, rfl, rfl,
            by rw [← hpv']; exact (Option.some.inj hq).symm⟩⟩
  · exact late _ [Event.glfwTerminate] (by simp) e
  · exact late Outcome.running [] (by simp) (by rw [e]; simp)

/-- A run of `main` that has ended is the same run for every larger fuel. -/
theorem main_fuel (env : Env) (fuel fuel' : Nat) (h : List Event) (hle : fuel ≤ fuel')
    (hne : (main env fuel h).outcome ≠ Outcome.running) :
    main env fuel' h = main env fuel h := by
  obtain ⟨init, window, loaded, mesh, fragment, program, h1, h2, h3, h4, _, _, _, hcases⟩ :=
    main_cases env h
  rcases hcases fuel with ⟨hw, e⟩ | ⟨hw, hl, e⟩ | ⟨hw, hl, hmv, e⟩ | ⟨hw, hl, hmv, hfv, e⟩ |
    ⟨hw, hl, hmv, hfv, hpv, e⟩ | ⟨hw, hl, hmv, hfv, hpv, hlv, e⟩ |
    ⟨hw, hl, hmv, hfv, hpv, hlv, e⟩ <;>
  rcases hcases fuel' with ⟨hw', e'⟩ | ⟨hw', hl', e'⟩ | ⟨hw', hl', hmv', e'⟩ |
    ⟨hw', hl', hmv', hfv', e'⟩ | ⟨hw', hl', hmv', hfv', hpv', e'⟩ |
    ⟨hw', hl', hmv', hfv', hpv', hlv', e'⟩ | ⟨hw', hl', hmv', hfv', hpv', hlv', e'⟩ <;>
  first
    | contradiction
    | (rw [e, e']; done)
    | (rw [e] at hne; exact absurd rfl hne)
    | (rw [e, e', main_render_loop_fuel env program.val window fuel fuel' h4 hle hlv]; done)
    | (rw [main_render_loop_fuel env program.val window fuel fuel' h4 hle hlv] at hlv'
       rw [hlv] at hlv'
       exact absurd hlv' (by decide))

/-- When window creation and the loader succeeded, the trace records no failure of
either. -/
theorem before_loop_no_failure (init : Int) (window : Pointer) (loaded : Int)
    (B : List Event) (hw : window ≠ 0) (hl : loaded ≠ 0)
    (hB : ∀ e ∈ B, e.isStartupCall = false ∧ e.isBuilderCall = false ∨ e.isBuilderCall = true) :
    Event.glfwCreateWindow 800 600 "Hello Meshshader" 0 ∉
      window_calls init window ++ context_calls window loaded ++
        [Event.glViewport 0 0 800 600] ++ B ∧
    Event.gladLoadGLLoader 0 ∉
      window_calls init window ++ context_calls window loaded ++
        [Event.glViewport 0 0 800 600] ++ B := by
  constructor <;>
  · intro hmem
    rcases List.mem_append.mp hmem with hmem | hmem
    · simp [window_calls, context_calls] at hmem
      first
        | exact hw hmem.symm
        | exact hl hmem.symm
    · rcases hB _ hmem with hk | hk <;> simp [Event.isStartupCall, Event.isBuilderCall] at hk

/-- The exit code of `main` read off the events of the run: -1 exactly when the
run records a `NULL` window or a failed loader, 0 exactly when a loop-top check
found the should-close flag set, and then the three assertions had passed and
`glfwTerminate` was the last call. -/
theorem main_exit_events (env : Env) (fuel : Nat) (h : List Event) :
    ((main env fuel h).outcome = Outcome.returned (-1) ↔
      (Event.glfwCreateWindow 800 600 "Hello Meshshader" 0 ∈ (main env fuel h).trace ∨
       Event.gladLoadGLLoader 0 ∈ (main env fuel h).trace)) ∧
    ((main env fuel h).outcome = Outcome.returned (-1) →
      ∀ e ∈ (main env fuel h).trace, e.isShaderOrProgramCall = false) ∧
    ((main env fuel h).outcome = Outcome.returned 0 ↔
      ∃ w r, r ≠ 0 ∧ Event.glfwWindowShouldClose w r ∈ (main env fuel h).trace) ∧
    ((main env fuel h).outcome = Outcome.returned 0 →
      (∃ m f q, m ≠ 0 ∧ f ≠ 0 ∧ q ≠ 0 ∧ (main env fuel h).mesh_shader = some m ∧
        (main env fuel h).fragment_shader = some f ∧ (main env fuel h).gpu_program = some q) ∧
      (∃ w, w ≠ 0 ∧ Event.glfwCreateWindow 800 600 "Hello Meshshader" w ∈
        (main env fuel h).trace) ∧
      (∃ l, l ≠ 0 ∧ Event.gladLoadGLLoader l ∈ (main env fuel h).trace) ∧
      (main env fuel h).trace.getLast? = some Event.glfwTerminate) ∧
    ((main env fuel h).outcome ≠ Outcome.running →
      ∀ fuel', fuel ≤ fuel' → main env fuel' h = main env fuel h) := by
  obtain ⟨init, window, loaded, mesh, fragment, program, h1, h2, h3, h4, hm, hf, hp, hcases⟩ :=
    main_cases env h
  have hmB : ∀ e ∈ mesh.trace, e.isBuilderCall = true := by
    rw [hm]; exact create_shader_from_string_calls env _ _ _
  have hfB : ∀ e ∈ fragment.trace, e.isBuilderCall = true := by
    rw [hf]; exact create_shader_from_string_calls env _ _ _
  have hpB : ∀ e ∈ program.trace, e.isBuilderCall = true := by
    rw [hp]; exact create_program_calls env _ _ _
  have hbuilt : ∀ e ∈ mesh.trace ++ fragment.trace ++ program.trace,
      e.isBuilderCall = true :=
    fun x hx => (List.mem_append.mp hx).elim
      (fun hx => (List.mem_append.mp hx).elim (hmB x) (hfB x)) (hpB x)
  have hloop := main_render_loop_startup_free env program.val window fuel h4
  -- runs stopped by an assertion
  have stopped : ∀ (B : List Event), window ≠ 0 → loaded ≠ 0 →
      (∀ e ∈ B, e.isBuilderCall = true) →
      (main env fuel h).outcome = Outcome.aborted →
      (main env fuel h).trace = window_calls init window ++
        context_calls window loaded ++ [Event.glViewport 0 0 800 600] ++ B →
      ((main env fuel h).outcome = Outcome.returned (-1) ↔
        (Event.glfwCreateWindow 800 600 "Hello Meshshader" 0 ∈ (main env fuel h).trace ∨
         Event.gladLoadGLLoader 0 ∈ (main env fuel h).trace)) ∧
      ((main env fuel h).outcome = Outcome.returned (-1) →
        ∀ e ∈ (main env fuel h).trace, e.isShaderOrProgramCall = false) ∧
      ((main env fuel h).outcome = Outcome.returned 0 ↔
        ∃ w r, r ≠ 0 ∧ Event.glfwWindowShouldClose w r ∈ (main env fuel h).trace) ∧
      ((main env fuel h).outcome = Outcome.returned 0 →
        (∃ m f q, m ≠ 0 ∧ f ≠ 0 ∧ q ≠ 0 ∧ (main env fuel h).mesh_shader = some m ∧
          (main env fuel h).fragment_shader = some f ∧
          (main env fuel h).gpu_program = some q) ∧
        (∃ w, w ≠ 0 ∧ Event.glfwCreateWindow 800 600 "Hello Meshshader" w ∈
          (main env fuel h).trace) ∧
        (∃ l, l ≠ 0 ∧ Event.gladLoadGLLoader l ∈ (main env fuel h).trace) ∧
        (main env fuel h).trace.getLast? = some Event.glfwTerminate) := by
    intro B hw hl hB eo et
    obtain ⟨hn1, hn2⟩ := before_loop_no_failure init window loaded B hw hl
      (fun x hx => Or.inr (hB x hx))
    have hnl := before_loop_calls init window loaded B hB
    rw [eo, et]
    refine ⟨?_, ?_, ?_, ?_⟩
    · constructor
      · intro hc; cases hc
      · rintro (hc | hc)
        · exact absurd hc hn1
        · exact absurd hc hn2
    · intro hc; cases hc
    · constructor
      · intro hc; cases hc
      · rintro ⟨w, r, _, hmem⟩
        have := hnl _ hmem
        simp [Event.isLoopCall] at this
    · intro hc; cases hc
  rcases hcases fuel with ⟨hw, e⟩ | ⟨hw, hl, e⟩ | ⟨hw, hl, hmv, e⟩ | ⟨hw, hl, hmv, hfv, e⟩ |
    ⟨hw, hl, hmv, hfv, hpv, e⟩ | ⟨hw, hl, hmv, hfv, hpv, hlv, e⟩ |
    ⟨hw, hl, hmv, hfv, hpv, hlv, e⟩
  · refine ⟨?_, ?_, ?_, ?_, fun hne fuel' hle => main_fuel env fuel fuel' h hle hne⟩ <;>
      rw [e] <;> simp only []
    · simp [window_calls, hw]
    · intro _ x hx
      simp [window_calls] at hx
      casesm* _ ∨ _ <;> subst_vars <;> simp [Event.isShaderOrProgramCall]
    · simp [window_calls]
    · intro hc; simp at hc
  · refine ⟨?_, ?_, ?_, ?_, fun hne fuel' hle => main_fuel env fuel fuel' h hle hne⟩ <;>
      rw [e] <;> simp only []
    · simp [window_calls, context_calls, hl]
    · intro _ x hx
      simp [window_calls, context_calls] at hx
      casesm* _ ∨ _ <;> subst_vars <;> simp [Event.isShaderOrProgramCall]
    · simp [window_calls, context_calls]
    · intro hc; simp at hc
  · obtain ⟨c1, c2, c3, c4⟩ := stopped _ hw hl hmB (by rw [e]) (by rw [e])
    exact ⟨c1, c2, c3, c4, fun hne fuel' hle => main_fuel env fuel fuel' h hle hne⟩
  · obtain ⟨c1, c2, c3, c4⟩ := stopped (mesh.trace ++ fragment.trace) hw hl
      (fun x hx => (List.mem_append.mp hx).elim (hmB x) (hfB x))
      (by rw [e]) (by rw [e]; simp [List.append_assoc])
    exact ⟨c1, c2, c3, c4, fun hne fuel' hle => main_fuel env fuel fuel' h hle hne⟩
  · obtain ⟨c1, c2, c3, c4⟩ := stopped (mesh.trace ++ fragment.trace ++ program.trace)
      hw hl hbuilt (by rw [e]) (by rw [e]; simp [List.append_assoc])
    exact ⟨c1, c2, c3, c4, fun hne fuel' hle => main_fuel env fuel fuel' h hle hne⟩
  all_goals
    have inloop : ∀ (T : List Event), (∀ x ∈ T, x = Event.glfwTerminate) →
        (main env fuel h).trace = window_calls init window ++ context_calls window loaded ++
          [Event.glViewport 0 0 800 600] ++ (mesh.trace ++ fragment.trace ++ program.trace ++
          (main_render_loop env program.val window fuel h4).trace ++ T) →
        (Event.glfwCreateWindow 800 600 "Hello Meshshader" 0 ∉ (main env fuel h).trace ∧
          Event.gladLoadGLLoader 0 ∉ (main env fuel h).trace) ∧
        ((∃ w r, r ≠ 0 ∧ Event.glfwWindowShouldClose w r ∈ (main env fuel h).trace) ↔
          (main_render_loop env program.val window fuel h4).val = true) ∧
        (Event.glfwCreateWindow 800 600 "Hello Meshshader" window ∈ (main env fuel h).trace ∧
          Event.gladLoadGLLoader loaded ∈ (main env fuel h).trace) := by
      intro T hT et
      rw [et]
      refine ⟨?_, ?_, ?_⟩
      · refine before_loop_no_failure init window loaded _ hw hl ?_
        intro x hx
        rcases List.mem_append.mp hx with hx | hx
        · rcases List.mem_append.mp hx with hx | hx
          · exact Or.inr (hbuilt x hx)
          · exact Or.inl ⟨(hloop x hx).1, (hloop x hx).2.1⟩
        · rw [hT x hx]
          exact Or.inl ⟨rfl, rfl⟩
      · rw [main_render_loop_closed]
        constructor
        · rintro ⟨w, r, hr, hmem⟩
          rcases List.mem_append.mp hmem with hmem | hmem
          · simp [window_calls, context_calls] at hmem
          · rcases List.mem_append.mp hmem with hmem | hmem
            · rcases List.mem_append.mp hmem with hmem | hmem
              · have := hbuilt _ hmem
                simp [Event.isBuilderCall] at this
              · exact ⟨w, r, hr, hmem⟩
            · have := hT _ hmem
              simp at this
        · rintro ⟨w, r, hr, hmem⟩
          exact ⟨w, r, hr, List.mem_append_right _
            (List.mem_append_left _ (List.mem_append_right _ hmem))⟩
      · simp [window_calls, context_calls]
  · obtain ⟨⟨hn1, hn2⟩, hclose, hcw, hgl⟩ := inloop [Event.glfwTerminate] (by simp)
      (by rw [e]; simp [List.append_assoc])
    refine ⟨?_, ?_, ?_, ?_, fun hne fuel' hle => main_fuel env fuel fuel' h hle hne⟩
    · constructor
      · intro hc; rw [e] at hc; simp at hc
      · rintro (hc | hc)
        · exact absurd hc hn1
        · exact absurd hc hn2
    · intro hc; rw [e] at hc; simp at hc
    · rw [hclose]
      constructor
      · intro _; exact hlv
      · intro _; rw [e]
    · intro _
      refine ⟨⟨mesh.val, fragment.val, program.val, hmv, hfv, hpv, ?_, ?_, ?_⟩,
        ⟨window, hw, hcw⟩, ⟨loaded, hl, hgl⟩, ?_⟩ <;> rw [e]
      exact List.getLast?_concat _
  · obtain ⟨⟨hn1, hn2⟩, hclose, _, _⟩ := inloop [] (by simp)
      (by rw [e]; simp [List.append_assoc])
    refine ⟨?_, ?_, ?_, ?_, fun hne fuel' hle => main_fuel env fuel fuel' h hle hne⟩
    · constructor
      · intro hc; rw [e] at hc; simp at hc
      · rintro (hc | hc)
        · exact absurd hc hn1
        · exact absurd hc hn2
    · intro hc; rw [e] at hc; simp at hc
    · rw [hclose, hlv]
      constructor
      · intro hc; rw [e] at hc; simp at hc
      · intro hc; simp at hc
    · intro hc; rw [e] at hc; simp at hc

/-- C4: the trace of the render loop of `main` is a sequence of iterations, each
opened by a loop-top check that finds the should-close flag false, followed by
nothing or by the one check that finds it true.  Every iteration, whatever key
state it reads (Escape pressed or not) and whatever resizes arrive, issues
`glClearColor(0.2, 0.3, 0.3, 1.0)`, `glClear(GL_COLOR_BUFFER_BIT)`,
`glUseProgram(gpu_program)`, `glDrawMeshTasksNV(0, 1)` and
`glfwSwapBuffers(window)`, once each and in that order.  This holds for the loop
started with any program and window, and for every run of `main`, where the
program is the non-null handle held by `gpu_program` and nothing before the
first iteration is a call of the loop. -/
theorem render_loop_invariant (env : Env) (fuel : Nat) (h : List Event) :
    (∀ (p : GLuint) (w : Pointer) (h' : List Event),
      ∃ (iterations : List (List Event)) (tail : List Event),
        (main_render_loop env p w fuel h').trace = iterations.flatten ++ tail ∧
        (tail = [] ∨ ∃ r, r ≠ 0 ∧ tail = [Event.glfwWindowShouldClose w r]) ∧
        ∀ it ∈ iterations, ∃ (key : Int) (resizes : List (Int × Int)),
          it = [Event.glfwWindowShouldClose w 0, Event.glfwGetKey w GLFW_KEY_ESCAPE key] ++
            (if key = GLFW_PRESS then [Event.glfwSetWindowShouldClose w 1] else []) ++
            [Event.glClearColor ⟨2, 1⟩ ⟨3, 1⟩ ⟨3, 1⟩ ⟨10, 1⟩,
             Event.glClear GL_COLOR_BUFFER_BIT,
             Event.glUseProgram p,
             Event.glDrawMeshTasksNV 0 1,
             Event.glfwSwapBuffers w,
             Event.glfwPollEvents] ++
            resizes.map (fun wh => Event.glViewport 0 0 wh.1 wh.2)) ∧
    (∃ (startup : List Event) (iterations : List (List Event)) (ending : List Event)
        (p : GLuint) (w : Pointer),
      (main env fuel h).trace = startup ++ iterations.flatten ++ ending ∧
      (∀ e ∈ startup, e.isLoopCall = false) ∧
      (ending = [] ∨
        ∃ r, r ≠ 0 ∧ ending = [Event.glfwWindowShouldClose w r, Event.glfwTerminate]) ∧
      (iterations ≠ [] → p ≠ 0 ∧ (main env fuel h).gpu_program = some p) ∧
      ∀ it ∈ iterations, ∃ (key : Int) (resizes : List (Int × Int)),
        it = [Event.glfwWindowShouldClose w 0, Event.glfwGetKey w GLFW_KEY_ESCAPE key] ++
          (if key = GLFW_PRESS then [Event.glfwSetWindowShouldClose w 1] else []) ++
          [Event.glClearColor ⟨2, 1⟩ ⟨3, 1⟩ ⟨3, 1⟩ ⟨10, 1⟩,
           Event.glClear GL_COLOR_BUFFER_BIT,
           Event.glUseProgram p,
           Event.glDrawMeshTasksNV 0 1,
           Event.glfwSwapBuffers w,
           Event.glfwPollEvents] ++
          resizes.map (fun wh => Event.glViewport 0 0 wh.1 wh.2)) := by
  constructor
  · intro p w h'
    obtain ⟨its, tail, htr, htail, hits⟩ := main_render_loop_iterations env p w fuel h'
    refine ⟨its, tail, htr, ?_, hits⟩
    rcases htail with ⟨ht, _⟩ | ⟨r, hr, ht, _⟩
    · exact Or.inl ht
    · exact Or.inr ⟨r, hr, ht⟩
  obtain ⟨init, window, loaded, mesh, fragment, program, h1, h2, h3, h4, hm, hf, hp, hcases⟩ :=
    main_cases env h
  have hmB : ∀ e ∈ mesh.trace, e.isBuilderCall = true := by
    rw [hm]; exact create_shader_from_string_calls env _ _ _
  have hfB : ∀ e ∈ fragment.trace, e.isBuilderCall = true := by
    rw [hf]; exact create_shader_from_string_calls env _ _ _
  have hpB : ∀ e ∈ program.trace, e.isBuilderCall = true := by
    rw [hp]; exact create_program_calls env _ _ _
  -- a run that never enters the loop is all start-up
  have noiter : (∀ e ∈ (main env fuel h).trace, e.isLoopCall = false) →
      ∃ (startup : List Event) (iterations : List (List Event)) (ending : List Event)
        (p : GLuint) (w : Pointer),
      (main env fuel h).trace = startup ++ iterations.flatten ++ ending ∧
      (∀ e ∈ startup, e.isLoopCall = false) ∧
      (ending = [] ∨
        ∃ r, r ≠ 0 ∧ ending = [Event.glfwWindowShouldClose w r, Event.glfwTerminate]) ∧
      (iterations ≠ [] → p ≠ 0 ∧ (main env fuel h).gpu_program = some p) ∧
      ∀ it ∈ iterations, ∃ (key : Int) (resizes : List (Int × Int)),
        it = [Event.glfwWindowShouldClose w 0, Event.glfwGetKey w GLFW_KEY_ESCAPE key] ++
          (if key = GLFW_PRESS then [Event.glfwSetWindowShouldClose w 1] else []) ++
          [Event.glClearColor ⟨2, 1⟩ ⟨3, 1⟩ ⟨3, 1⟩ ⟨10, 1⟩,
           Event.glClear GL_COLOR_BUFFER_BIT,
           Event.glUseProgram p,
           Event.glDrawMeshTasksNV 0 1,
           Event.glfwSwapBuffers w,
           Event.glfwPollEvents] ++
          resizes.map (fun wh => Event.glViewport 0 0 wh.1 wh.2) :=
    fun hnl => ⟨(main env fuel h).trace, [], [], 0, 0, by simp, hnl, Or.inl rfl,
      fun hne => absurd rfl hne, by simp⟩
  rcases hcases fuel with ⟨hw, e⟩ | ⟨hw, hl, e⟩ | ⟨hw, hl, hmv, e⟩ | ⟨hw, hl, hmv, hfv, e⟩ |
    ⟨hw, hl, hmv, hfv, hpv, e⟩ | ⟨hw, hl, hmv, hfv, hpv, hlv, e⟩ |
    ⟨hw, hl, hmv, hfv, hpv, hlv, e⟩
  · refine noiter ?_
    rw [e]; intro x hx
    simp [window_calls] at hx
    casesm* _ ∨ _ <;> subst_vars <;> simp [Event.isLoopCall]
  · refine noiter ?_
    rw [e]; intro x hx
    simp [window_calls, context_calls] at hx
    casesm* _ ∨ _ <;> subst_vars <;> simp [Event.isLoopCall]
  · refine noiter ?_
    rw [e]
    exact before_loop_calls init window loaded _ hmB
  · refine noiter ?_
    rw [e]
    have := before_loop_calls init window loaded (mesh.trace ++ fragment.trace)
      (fun x hx => (List.mem_append.mp hx).elim (hmB x) (hfB x))
    simpa [List.append_assoc] using this
  · refine noiter ?_
    rw [e]
    have := before_loop_calls init window loaded
      (mesh.trace ++ fragment.trace ++ program.trace)
      (fun x hx => (List.mem_append.mp hx).elim
        (fun hx => (List.mem_append.mp hx).elim (hmB x) (hfB x)) (hpB x))
    simpa [List.append_assoc] using this
  all_goals
    have hS : ∀ x ∈ window_calls init window ++ context_calls window loaded ++
        [Event.glViewport 0 0 800 600] ++ mesh.trace ++ fragment.trace ++ program.trace,
        x.isLoopCall = false := by
      have := before_loop_calls init window loaded
        (mesh.trace ++ fragment.trace ++ program.trace)
        (fun x hx => (List.mem_append.mp hx).elim
          (fun hx => (List.mem_append.mp hx).elim (hmB x) (hfB x)) (hpB x))
      simpa [List.append_assoc] using this
    obtain ⟨its, tail, htr, htail, hits⟩ :=
      main_render_loop_iterations env program.val window fuel h4
  · rcases htail with ⟨_, hv⟩ | ⟨r, hr, ht, _⟩
    · rw [hlv] at hv; exact absurd hv (by decide)
    · refine ⟨_, its, [Event.glfwWindowShouldClose window r, Event.glfwTerminate],
        program.val, window, ?_, hS, Or.inr ⟨r, hr, rfl⟩, fun _ => ⟨hpv, by rw [e]⟩, hits⟩
      rw [e]; simp only []
      rw [htr, ht]; simp
  · rcases htail with ⟨ht, _⟩ | ⟨r, _, _, hv⟩
    · refine ⟨_, its, [], program.val, window, ?_, hS, Or.inl rfl,
        fun _ => ⟨hpv, by rw [e]⟩, hits⟩
      rw [e]; simp only []
      rw [htr, ht]; simp
    · rw [hlv] at hv; exact absurd hv (by decide)

/-- C6 on a platform whose driver creates no shader object: `mesh_shader` is 0
and the run is stopped by the first assertion. -/
theorem main_never_draws_without_program_witness :
    (main no_shader_platform 5 []).mesh_shader = some 0 ∧
    (main no_shader_platform 5 []).outcome = Outcome.aborted :=
  ⟨by decide,
   ((main_never_draws_without_program no_shader_platform 5 []).1 (Or.inl (by decide))).1⟩

/-- The run of `main` in terms of what the environment answers: `init`,
`window` and `loaded` are the answers of `glfwInit`, `glfwCreateWindow` and
`gladLoadGLLoader` at the histories at which `main` asks, and `mesh`,
`fragment` and `program` are the results of the builders there. -/
theorem main_run (env : Env) (h : List Event) (init : Int) (window : Pointer)
    (loaded : Int) (mesh fragment program : Res GLuint)
    (hinit : env.glfwInit h = init)
    (hwindow : env.glfwCreateWindow
      (h ++ [Event.glfwInit init,
             Event.glfwWindowHint GLFW_CONTEXT_VERSION_MAJOR 4,
             Event.glfwWindowHint GLFW_CONTEXT_VERSION_MINOR 6,
             Event.glfwWindowHint GLFW_OPENGL_PROFILE GLFW_OPENGL_CORE_PROFILE])
      800 600 "Hello Meshshader" = window)
    (hloaded : env.gladLoadGLLoader
      (h ++ window_calls init window ++
        [Event.glfwSetFramebufferSizeCallback window, Event.glfwMakeContextCurrent window])
      = loaded)
    (hmesh : create_shader_from_string env GL_MESH_SHADER_NV MeshShader
      (h ++ window_calls init window ++ context_calls window loaded ++
        [Event.glViewport 0 0 800 600]) = mesh)
    (hfragment : create_shader_from_string env GL_FRAGMENT_SHADER FragmentShader
      (h ++ window_calls init window ++ context_calls window loaded ++
        [Event.glViewport 0 0 800 600] ++ mesh.trace) = fragment)
    (hprogram : create_program env mesh.val fragment.val
      (h ++ window_calls init window ++ context_calls window loaded ++
        [Event.glViewport 0 0 800 600] ++ mesh.trace ++ fragment.trace) = program)
    (fuel : Nat) :
    main env fuel h =
      if window = 0 then
        ⟨Outcome.returned (-1),
         window_calls init window ++
           [Event.printf "Failed to create GLFW window\n" [], Event.glfwTerminate],
         none, none, none⟩
      else if loaded = 0 then
        ⟨Outcome.returned (-1),
         window_calls init window ++ context_calls window loaded ++
           [Event.printf "Failed to initialize GLAD\n" []],
         none, none, none⟩
      else if mesh.val = 0 then
        ⟨Outcome.aborted,
         window_calls init window ++ context_calls window loaded ++
           [Event.glViewport 0 0 800 600] ++ mesh.trace,
         some mesh.val, none, none⟩
      else if fragment.val = 0 then
        ⟨Outcome.aborted,
         window_calls init window ++ context_calls window loaded ++
           [Event.glViewport 0 0 800 600] ++ mesh.trace ++ fragment.trace,
         some mesh.val, some fragment.val, none⟩
      else if program.val = 0 then
        ⟨Outcome.aborted,
         window_calls init window ++ context_calls window loaded ++
           [Event.glViewport 0 0 800 600] ++ mesh.trace ++ fragment.trace ++ program.trace,
         some mesh.val, some fragment.val, some program.val⟩
      else if (main_render_loop env program.val window fuel
          (h ++ window_calls init window ++ context_calls window loaded ++
            [Event.glViewport 0 0 800 600] ++ mesh.trace ++ fragment.trace ++
            program.trace)).val = true then
        ⟨Outcome.returned 0,
         window_calls init window ++ context_calls window loaded ++
           [Event.glViewport 0 0 800 600] ++ mesh.trace ++ fragment.trace ++ program.trace ++
           (main_render_loop env program.val window fuel
             (h ++ window_calls init window ++ context_calls window loaded ++
               [Event.glViewport 0 0 800 600] ++ mesh.trace ++ fragment.trace ++
               program.trace)).trace ++ [Event.glfwTerminate],
         some mesh.val, some fragment.val, some program.val⟩
      else
        ⟨Outcome.running,
         window_calls init window ++ context_calls window loaded ++
           [Event.glViewport 0 0 800 600] ++ mesh.trace ++ fragment.trace ++ program.trace ++
           (main_render_loop env program.val window fuel
             (h ++ window_calls init window ++ context_calls window loaded ++
               [Event.glViewport 0 0 800 600] ++ mesh.trace ++ fragment.trace ++
               program.trace)).trace,
         some mesh.val, some fragment.val, some program.val⟩ := by
  subst hprogram hfragment hmesh hloaded hwindow hinit
  unfold main
  simp only [window_calls, context_calls, List.append_assoc, List.cons_append,
    List.nil_append]

/-- When the window system reports the should-close flag as set at every moment
after `k` completed iterations, the loop is left for every fuel above `k`. -/
theorem main_render_loop_closes (env : Env) (p : GLuint) (w : Pointer) :
    ∀ (k fuel : Nat) (h : List Event), k < fuel →
      (∀ t, k ≤ List.count Event.glfwPollEvents t →
        env.glfwWindowShouldClose (h ++ t) w ≠ 0) →
      (main_render_loop env p w fuel h).val = true := by
  intro k
  induction k with
  | zero =>
    intro fuel h hfuel hclose
    obtain ⟨f, rfl⟩ : ∃ f, fuel = f + 1 := ⟨fuel - 1, by omega⟩
    have hc : env.glfwWindowShouldClose h w ≠ 0 := by
      have := hclose [] (by simp)
      simpa using this
    rw [main_render_loop_exit env p w f h hc]
  | succ k ih =>
    intro fuel h hfuel hclose
    obtain ⟨f, rfl⟩ : ∃ f, fuel = f + 1 := ⟨fuel - 1, by omega⟩
    by_cases hc : env.glfwWindowShouldClose h w = 0
    · rw [main_render_loop_step env p w f h hc]
      simp only []
      refine ih f _ (by omega) ?_
      intro t ht
      rw [List.append_assoc]
      refine hclose _ ?_
      obtain ⟨resizes, hbody⟩ :=
        main_loop_body_eq env p w (h ++ [Event.glfwWindowShouldClose w 0])
      have hv0 := count_viewports Event.glfwPollEvents (by simp) resizes
      rw [hbody]
      by_cases hk : env.glfwGetKey (h ++ [Event.glfwWindowShouldClose w 0]) w
          GLFW_KEY_ESCAPE = GLFW_PRESS <;>
      · simp [hk, List.count_cons, List.count_append, hv0]
        omega
    · rw [main_render_loop_exit env p w f h hc]

/-- When the window system never reports the should-close flag as set, the loop
is never left through its condition. -/
theorem main_render_loop_never (env : Env) (p : GLuint) (w : Pointer) :
    ∀ (fuel : Nat) (h : List Event),
      (∀ t, env.glfwWindowShouldClose (h ++ t) w = 0) →
      (main_render_loop env p w fuel h).val = false := by
  intro fuel
  induction fuel with
  | zero => intro h _; rfl
  | succ f ih =>
    intro h hopen
    have hc : env.glfwWindowShouldClose h w = 0 := by
      have := hopen []
      simpa using this
    rw [main_render_loop_step env p w f h hc]
    simp only []
    refine ih _ ?_
    intro t
    rw [List.append_assoc]
    exact hopen _

/-- C7: let `window` and `loaded` be what `glfwCreateWindow` and
`gladLoadGLLoader` answer at the moments `main` calls them, and `mesh`,
`fragment`, `program` what the builders return there.  Then `main` returns -1
exactly when `window` is `NULL` or `loaded` is 0, and in that case has made no
shader call, program call or draw.  It returns 0 exactly when both succeeded,
the three handles are non-null (the assertions pass) and the render loop is left
through its condition, which is exactly when a loop-top check found the
should-close flag set; `glfwTerminate` is then its last call.  When the window
system reports the flag as set from `k` completed iterations on, every fuel
above `k` gives the return of 0; when it never reports it, `main` never returns.
Its only return codes are -1 and 0, and a run that has ended is the same for
every larger fuel. -/
theorem main_exit_code (env : Env) (fuel : Nat) (h : List Event) (init : Int)
    (window : Pointer) (loaded : Int) (mesh fragment program : Res GLuint)
    (hinit : env.glfwInit h = init)
    (hwindow : env.glfwCreateWindow
      (h ++ [Event.glfwInit init,
             Event.glfwWindowHint GLFW_CONTEXT_VERSION_MAJOR 4,
             Event.glfwWindowHint GLFW_CONTEXT_VERSION_MINOR 6,
             Event.glfwWindowHint GLFW_OPENGL_PROFILE GLFW_OPENGL_CORE_PROFILE])
      800 600 "Hello Meshshader" = window)
    (hloaded : env.gladLoadGLLoader
      (h ++ window_calls init window ++
        [Event.glfwSetFramebufferSizeCallback window, Event.glfwMakeContextCurrent window])
      = loaded)
    (hmesh : create_shader_from_string env GL_MESH_SHADER_NV MeshShader
      (h ++ window_calls init window ++ context_calls window loaded ++
        [Event.glViewport 0 0 800 600]) = mesh)
    (hfragment : create_shader_from_string env GL_FRAGMENT_SHADER FragmentShader
      (h ++ window_calls init window ++ context_calls window loaded ++
        [Event.glViewport 0 0 800 600] ++ mesh.trace) = fragment)
    (hprogram : create_program env mesh.val fragment.val
      (h ++ window_calls init window ++ context_calls window loaded ++
        [Event.glViewport 0 0 800 600] ++ mesh.trace ++ fragment.trace) = program) :
    ((main env fuel h).outcome = Outcome.returned (-1) ↔ window = 0 ∨ loaded = 0) ∧
    ((main env fuel h).outcome = Outcome.returned (-1) →
      ∀ e ∈ (main env fuel h).trace, e.isShaderOrProgramCall = false) ∧
    ((main env fuel h).outcome = Outcome.returned 0 ↔
      window ≠ 0 ∧ loaded ≠ 0 ∧ mesh.val ≠ 0 ∧ fragment.val ≠ 0 ∧ program.val ≠ 0 ∧
      (main_render_loop env program.val window fuel
        (h ++ window_calls init window ++ context_calls window loaded ++
          [Event.glViewport 0 0 800 600] ++ mesh.trace ++ fragment.trace ++ program.trace)).val = true) ∧
    ((main env fuel h).outcome = Outcome.returned 0 ↔
      ∃ w r, r ≠ 0 ∧ Event.glfwWindowShouldClose w r ∈ (main env fuel h).trace) ∧
    ((main env fuel h).outcome = Outcome.returned 0 →
      (main env fuel h).trace.getLast? = some Event.glfwTerminate) ∧
    (window ≠ 0 → loaded ≠ 0 → mesh.val ≠ 0 → fragment.val ≠ 0 → program.val ≠ 0 →
      ∀ k, k < fuel →
      (∀ t, k ≤ List.count Event.glfwPollEvents t → env.glfwWindowShouldClose
        ((h ++ window_calls init window ++ context_calls window loaded ++
          [Event.glViewport 0 0 800 600] ++ mesh.trace ++ fragment.trace ++ program.trace) ++ t) window ≠ 0) →
      (main env fuel h).outcome = Outcome.returned 0) ∧
    (window ≠ 0 → loaded ≠ 0 → mesh.val ≠ 0 → fragment.val ≠ 0 → program.val ≠ 0 →
      (∀ t, env.glfwWindowShouldClose
        ((h ++ window_calls init window ++ context_calls window loaded ++
          [Event.glViewport 0 0 800 600] ++ mesh.trace ++ fragment.trace ++ program.trace) ++ t) window = 0) →
      (main env fuel h).outcome = Outcome.running) ∧
    (∀ c, (main env fuel h).outcome = Outcome.returned c → c = -1 ∨ c = 0) ∧
    ((main env fuel h).outcome ≠ Outcome.running →
      ∀ fuel', fuel ≤ fuel' → main env fuel' h = main env fuel h) := by
  have e := main_run env h init window loaded mesh fragment program
    hinit hwindow hloaded hmesh hfragment hprogram fuel
  obtain ⟨_, _, hzero, hlast, _⟩ := main_exit_events env fuel h
  have hstable : (main env fuel h).outcome ≠ Outcome.running →
      ∀ fuel', fuel ≤ fuel' → main env fuel' h = main env fuel h :=
    fun hne fuel' hle => main_fuel env fuel fuel' h hle hne
  have hcl := fun k => main_render_loop_closes env program.val window k fuel
    (h ++ window_calls init window ++ context_calls window loaded ++
      [Event.glViewport 0 0 800 600] ++ mesh.trace ++ fragment.trace ++ program.trace)
  have hnv := main_render_loop_never env program.val window fuel
    (h ++ window_calls init window ++ context_calls window loaded ++
      [Event.glViewport 0 0 800 600] ++ mesh.trace ++ fragment.trace ++ program.trace)
  clear hinit hwindow hloaded hmesh hfragment hprogram
  generalize (h ++ window_calls init window ++ context_calls window loaded ++
      [Event.glViewport 0 0 800 600] ++ mesh.trace ++ fragment.trace ++ program.trace) = H at e hcl hnv ⊢
  generalize main_render_loop env program.val window fuel H = L at e hcl hnv ⊢
  generalize hR : main env fuel h = R at e hzero hlast hstable ⊢
  clear hR
  refine ⟨?_, ?_, ?_, hzero, fun hc => (hlast hc).2.2.2, ?_, ?_, ?_, hstable⟩
  · by_cases hw : window = 0
    · subst e; simp [hw]
    by_cases hl : loaded = 0
    · subst e; simp [hw, hl]
    subst e
    simp only [hw, hl, if_false, or_self, iff_false]
    split_ifs <;> simp
  · by_cases hw : window = 0
    · subst e
      simp only [hw, if_true]
      intro _ x hx
      simp [window_calls] at hx
      casesm* _ ∨ _ <;> subst_vars <;> simp [Event.isShaderOrProgramCall]
    by_cases hl : loaded = 0
    · subst e
      simp only [hw, hl, if_true, if_false]
      intro _ x hx
      simp [window_calls, context_calls] at hx
      casesm* _ ∨ _ <;> subst_vars <;> simp [Event.isShaderOrProgramCall]
    subst e
    simp only [hw, hl, if_false]
    split_ifs <;> (intro hc; simp at hc)
  · subst e
    by_cases hw : window = 0
    · simp [hw]
    by_cases hl : loaded = 0
    · simp [hw, hl]
    by_cases hm : mesh.val = 0
    · simp [hw, hl, hm]
    by_cases hf : fragment.val = 0
    · simp [hw, hl, hm, hf]
    by_cases hp : program.val = 0
    · simp [hw, hl, hm, hf, hp]
    by_cases hv : L.val = true
    · simp [hw, hl, hm, hf, hp, hv]
    · simp [hw, hl, hm, hf, hp, hv]
  · intro hw hl hm hf hp k hk hclose
    have hv := hcl k hk hclose
    subst e
    simp [hw, hl, hm, hf, hp, hv]
  · intro hw hl hm hf hp hopen
    have hv := hnv hopen
    subst e
    simp [hw, hl, hm, hf, hp, hv]
  · intro c hc
    subst e
    split_ifs at hc <;> simp at hc <;> omega

/-- C7 on four platforms.  Where the loader fails `main` returns -1, and so it
does where `glfwCreateWindow` returns `NULL`; where everything succeeds and
Escape is pressed in iteration 2 it returns 0; where the window asks to close
after two polls it returns 0 with fuel for three loop-top checks. -/
theorem main_exit_code_witness :
    (main no_loader_platform 5 []).outcome = Outcome.returned (-1) ∧
    (main Env.silent 5 []).outcome = Outcome.returned (-1) ∧
    (main working_platform 5 []).outcome = Outcome.returned 0 ∧
    (main (closed_after 2) 3 []).outcome = Outcome.returned 0 :=
  ⟨(main_exit_code no_loader_platform 5 [] 1 4096 0 _ _ _ rfl rfl rfl rfl rfl rfl).1.mpr
      (Or.inr rfl),
   (main_exit_code Env.silent 5 [] 0 0 0 _ _ _ rfl rfl rfl rfl rfl rfl).1.mpr (Or.inl rfl),
   (main_exit_code working_platform 5 [] 1 4096 1 _ _ _ rfl rfl rfl rfl rfl rfl).2.2.1.mpr
      ⟨by decide, by decide, by decide, by decide, by decide, by decide⟩,
   (main_exit_code (closed_after 2) 3 [] 1 4096 1 _ _ _
      rfl rfl rfl rfl rfl rfl).2.2.2.2.2.1
      (by decide) (by decide) (by decide) (by decide) (by decide) 2 (by decide)
      (by intro t ht; simp [closed_after, List.count_append]; omega)⟩

end HelloMeshShader
